import Mathlib

/-!
# openFRET JSON codec (`cpp/openfret.cpp`)

A shallow embedding of the `to_json` / `from_json` pairs of `cpp/openfret.cpp`
and of the part of the `nlohmann::json` value type they call.

* `json` is the type `Json`: `null`, `boolean`, the three number kinds,
  `string`, `array` and `object`.  An object is a `std::map<std::string, json>`;
  it is kept as the list of its members in increasing key order, which is the
  order in which the map iterates.
* A `void from_json(const json& j, T& t)` is a function `Json → T → Outcome T`:
  it receives the destination as it is before the call and returns it as it is
  after the call, together with the exception when one leaves the function.
* The C++ `float` and `double` values are the types of a `FloatConv` instance,
  which carries the conversions the library applies between them.
-/

namespace OpenFRET

/-! ## Floating-point interface -/

/-- Conversions between the `float` fields (`F`) and the `double` stored in a
JSON `number_float` (`D`).  `F` and `D` stand for the sets of binary32 and
binary64 values (one NaN each); `widen` is exact, so narrowing a widened
value gives the value back. -/
class FloatConv (F : Type) (D : Type) where
  /-- The literal `0.0f`; also the value of a value-initialised `float`. -/
  zero : F
  /-- The test `x == 0.0f` (the code uses its negation `x != 0.0f`). -/
  eqZero : F → Bool
  /-- The cast `static_cast<double>(x)` done when a `float` is stored in a `json`. -/
  widen : F → D
  /-- The cast `static_cast<float>(x)` of a `number_float`. -/
  narrow : D → F
  /-- The cast `static_cast<float>(x)` of a `number_integer`. -/
  ofInt : Int → F
  /-- The cast `static_cast<float>(x)` of a `number_unsigned`. -/
  ofNat : Nat → F
  /-- The cast `static_cast<float>(x)` of a `boolean`. -/
  ofBool : Bool → F
  narrow_widen : ∀ x : F, narrow (widen x) = x
  eqZero_zero : eqZero zero = true

/-- The whole-number fragment of the two float types, on which every cast is
the identity; used to evaluate the codec on concrete inputs. -/
instance wholeNumbers : FloatConv Int Int where
  zero := 0
  eqZero x := decide (x = 0)
  widen x := x
  narrow x := x
  ofInt x := x
  ofNat n := Int.ofNat n
  ofBool b := if b then 1 else 0
  narrow_widen _ := rfl
  eqZero_zero := rfl

/-! ## The `nlohmann::json` value -/

/-- A `nlohmann::json` value, of one of the kinds a parsed or encoded document can hold
(`type_name()` calls all three number kinds "number"). -/
inductive Json (D : Type) where
  | null
  | boolean (b : Bool)
  | number_integer (i : Int)
  | number_unsigned (n : Nat)
  | number_float (d : D)
  | string (s : String)
  | array (elems : List (Json D))
  | object (members : List (String × Json D))

/-- The exceptions of `nlohmann::json` that the codec can raise, by their id. -/
inductive JsonError where
  /-- `out_of_range.403`: `at(key)` on an object without that key. -/
  | out_of_range_403 (key : String)
  /-- `type_error.304`: `at(key)` on a value that is not an object. -/
  | type_error_304 (actual : String)
  /-- `type_error.302`: `get_to` on a value of the wrong kind
  ("type must be `expected`, but is `actual`"). -/
  | type_error_302 (expected : String) (actual : String)
  /-- `type_error.305`: `operator[]` with a string key on a value that is neither
  null nor an object. -/
  | type_error_305 (actual : String)
  /-- `invalid_iterator.207`: `key()` on an iterator of a non-object. -/
  | invalid_iterator_207
deriving DecidableEq, Repr

/-- Result of a `from_json(j, dst)` call: the destination after the call, and
the exception when the call did not return normally. -/
inductive Outcome (T : Type) where
  | ok (dst : T)
  | threw (e : JsonError) (dst : T)

namespace Json

variable {D : Type}

/-- The member list type of an object, `std::map<std::string, json>`. -/
abbrev Members (D : Type) := List (String × Json D)

/-- The method `type_name()`. -/
def type_name : Json D → String
  | null => "null"
  | boolean _ => "boolean"
  | number_integer _ => "number"
  | number_unsigned _ => "number"
  | number_float _ => "number"
  | string _ => "string"
  | array _ => "array"
  | object _ => "object"

/-- The lookup `std::map::find`. -/
def find : Members D → String → Option (Json D)
  | [], _ => none
  | (k, v) :: rest, key => if k = key then some v else find rest key

/-- The update `m[key] = v` of a `std::map`: the key is overwritten when present
and inserted at its place in key order when not. -/
def assign : Members D → String → Json D → Members D
  | [], key, v => [(key, v)]
  | (k, w) :: rest, key, v =>
    if key < k then (key, v) :: (k, w) :: rest
    else if key = k then (k, v) :: rest
    else (k, w) :: assign rest key v

/-- The insertion `m.emplace(key, v)` of a `std::map`: inserted at its place in key order,
nothing happens when the key is present. -/
def emplace : Members D → String → Json D → Members D
  | [], key, v => [(key, v)]
  | (k, w) :: rest, key, v =>
    if key < k then (key, v) :: (k, w) :: rest
    else if key = k then (k, w) :: rest
    else (k, w) :: emplace rest key v

/-- The members of `json{{k1, v1}, {k2, v2}, ...}`, a list of pairs whose first
components are strings: the pairs are put in the map with `emplace`, in the order written. -/
def pairs (l : List (String × Json D)) : Members D :=
  l.foldl (fun ms p => emplace ms p.1 p.2) []

/-- The test `j.contains(key)`: false on every value that is not an object. -/
def contains : Json D → String → Bool
  | object ms, key => (find ms key).isSome
  | _, _ => false

/-- The access `j.at(key)` of a `const json`. -/
def at_ : Json D → String → Except JsonError (Json D)
  | object ms, key =>
    match find ms key with
    | some v => .ok v
    | none => .error (.out_of_range_403 key)
  | j, _ => .error (.type_error_304 j.type_name)

/-- The assignment `j[key] = v`: a null `j` first becomes an empty object. -/
def set : Json D → String → Json D → Except JsonError (Json D)
  | null, key, v => .ok (object (assign [] key v))
  | object ms, key, v => .ok (object (assign ms key v))
  | j, _, _ => .error (.type_error_305 j.type_name)

end Json

/-! ## Metadata -/

/-- The class `Metadata`, a `std::map<std::string, json>`: its entries in key order. -/
abbrev Metadata (D : Type) := List (String × Json D)

/-- A list of entries is a `std::map` when its keys are strictly increasing. -/
def Metadata.IsMap {D : Type} (m : Metadata D) : Prop :=
  m.Pairwise (fun a b => a.1 < b.1)

/-- The function `to_json(json& j, const Metadata& m)`: `j[pair.first] = pair.second` for each
entry in turn; `j` is not assigned otherwise. -/
def Metadata.to_json {D : Type} : Json D → Metadata D → Except JsonError (Json D)
  | j, [] => .ok j
  | j, (k, v) :: rest =>
    match j.set k v with
    | .ok j1 => Metadata.to_json j1 rest
    | .error e => .error e

/-- The converting constructor `json(const Metadata&)`, used wherever a `Metadata` is
written into a `json`: `to_json` runs on the value under construction, which is null.
From null `to_json` does not throw (`to_json_null_nil`, `to_json_null_cons`), so the second
branch is never taken. -/
def Json.ofMetadata {D : Type} (m : Metadata D) : Json D :=
  match Metadata.to_json Json.null m with
  | .ok j => j
  | .error _ => Json.null

/-- The function `from_json(const json& j, Metadata& m)`: `m[it.key()] = it.value()` for
each element of `j`.  A null or an empty array has no element; `key()` throws
on the first element of any other value that is not an object. -/
def Metadata.from_json {D : Type} : Json D → Metadata D → Outcome (Metadata D)
  | .object ms, m => .ok (ms.foldl (fun acc p => Json.assign acc p.1 p.2) m)
  | .null, m => .ok m
  | .array [], m => .ok m
  | _, m => .threw .invalid_iterator_207 m

/-! ## Reading one member into a field -/

section get_to

variable {D : Type} {T A : Type}

/-- The statement `j.at(key).get_to(dst.field)`: `get` and `put` read and write the field
of the destination, `dec` is the `from_json` of the field's type. -/
def at_get_to (j : Json D) (key : String) (dec : Json D → A → Outcome A)
    (get : T → A) (put : T → A → T) (dst : T) : Outcome T :=
  match j.at_ key with
  | .error e => .threw e dst
  | .ok v =>
    match dec v (get dst) with
    | .ok a => .ok (put dst a)
    | .threw e a => .threw e (put dst a)

/-- The statement `if (j.contains(key)) j.at(key).get_to(dst.field)`. -/
def opt_get_to (j : Json D) (key : String) (dec : Json D → A → Outcome A)
    (get : T → A) (put : T → A → T) (dst : T) : Outcome T :=
  if j.contains key then at_get_to j key dec get put dst else .ok dst

/-- Sequencing of two statements: the second runs when the first returned normally. -/
def Outcome.andThen (o : Outcome T) (next : T → Outcome T) : Outcome T :=
  match o with
  | .ok dst => next dst
  | .threw e dst => .threw e dst

/-- The library `from_json` of `std::string`. -/
def from_json_string (j : Json D) (s : String) : Outcome String :=
  match j with
  | .string v => .ok v
  | _ => .threw (.type_error_302 "string" j.type_name) s

/-- The elements of an array, each read with `get<T>()` into a value-initialised `T`;
the first exception ends the loop. -/
def get_elems (dec : Json D → A → Outcome A) (fresh : A) : List (Json D) → Except JsonError (List A)
  | [] => .ok []
  | x :: xs =>
    match dec x fresh with
    | .threw e _ => .error e
    | .ok a =>
      match get_elems dec fresh xs with
      | .error e => .error e
      | .ok as => .ok (a :: as)

/-- The library `from_json` of `std::vector<T>`: the vector is replaced by the decoded
elements once all of them are read, and is untouched when an exception is thrown. -/
def from_json_vector (dec : Json D → A → Outcome A) (fresh : A) (j : Json D) (arr : List A) :
    Outcome (List A) :=
  match j with
  | .array elems =>
    match get_elems dec fresh elems with
    | .ok as => .ok as
    | .error e => .threw e arr
  | _ => .threw (.type_error_302 "array" j.type_name) arr

end get_to

/-- The library `from_json` of `float`: every number kind and `boolean` convert. -/
def from_json_float {F D : Type} [FloatConv F D] (j : Json D) (x : F) : Outcome F :=
  match j with
  | .number_unsigned n => .ok (FloatConv.ofNat D n)
  | .number_integer i => .ok (FloatConv.ofInt D i)
  | .number_float d => .ok (FloatConv.narrow d)
  | .boolean b => .ok (FloatConv.ofBool D b)
  | _ => .threw (.type_error_302 "number" j.type_name) x

/-! ## Channel -/

/-- The struct `Channel`. -/
structure Channel (F D : Type) where
  channel_type : String
  excitation_wavelength : F
  emission_wavelength : F
  exposure_time : F
  data : List F
  metadata : Metadata D

/-- A default-constructed `Channel`. -/
def Channel.fresh {F D : Type} [FloatConv F D] : Channel F D :=
  { channel_type := "", excitation_wavelength := FloatConv.zero D,
    emission_wavelength := FloatConv.zero D, exposure_time := FloatConv.zero D,
    data := [], metadata := [] }

/-- A `float` written into a `json`: a `number_float`. -/
def Json.ofFloat {F D : Type} [FloatConv F D] (x : F) : Json D :=
  .number_float (FloatConv.widen x)

/-- The members written by `to_json(json& j, const Channel& c)`. -/
def Channel.members {F D : Type} [FloatConv F D] (c : Channel F D) : Json.Members D :=
  let j := Json.pairs [("channel_type", .string c.channel_type),
    ("data", .array (c.data.map Json.ofFloat)),
    ("metadata", Json.ofMetadata c.metadata)]
  let j := if FloatConv.eqZero D c.excitation_wavelength then j
    else Json.assign j "excitation_wavelength" (Json.ofFloat c.excitation_wavelength)
  let j := if FloatConv.eqZero D c.emission_wavelength then j
    else Json.assign j "emission_wavelength" (Json.ofFloat c.emission_wavelength)
  if FloatConv.eqZero D c.exposure_time then j
    else Json.assign j "exposure_time" (Json.ofFloat c.exposure_time)

/-- The function `to_json(json& j, const Channel& c)`: `j` is assigned an object. -/
def Channel.to_json {F D : Type} [FloatConv F D] (c : Channel F D) : Json D :=
  .object c.members

/-- The function `from_json(const json& j, Channel& c)`. -/
def Channel.from_json {F D : Type} [FloatConv F D] (j : Json D) (c : Channel F D) :
    Outcome (Channel F D) :=
  (at_get_to j "channel_type" from_json_string (·.channel_type)
      (fun c a => { c with channel_type := a }) c).andThen fun c =>
  (at_get_to j "data" (from_json_vector from_json_float (FloatConv.zero D)) (·.data)
      (fun c a => { c with data := a }) c).andThen fun c =>
  (opt_get_to j "excitation_wavelength" from_json_float (·.excitation_wavelength)
      (fun c a => { c with excitation_wavelength := a }) c).andThen fun c =>
  (opt_get_to j "emission_wavelength" from_json_float (·.emission_wavelength)
      (fun c a => { c with emission_wavelength := a }) c).andThen fun c =>
  (opt_get_to j "exposure_time" from_json_float (·.exposure_time)
      (fun c a => { c with exposure_time := a }) c).andThen fun c =>
  opt_get_to j "metadata" Metadata.from_json (·.metadata)
      (fun c a => { c with metadata := a }) c

/-- The channel a reader sees after a round trip: a float field that compares equal to
`0.0f` is not written, so it is read back as `0.0f`. -/
def Channel.normalized {F D : Type} [FloatConv F D] (c : Channel F D) : Channel F D :=
  { c with
    excitation_wavelength :=
      if FloatConv.eqZero D c.excitation_wavelength then FloatConv.zero D
      else c.excitation_wavelength
    emission_wavelength :=
      if FloatConv.eqZero D c.emission_wavelength then FloatConv.zero D
      else c.emission_wavelength
    exposure_time :=
      if FloatConv.eqZero D c.exposure_time then FloatConv.zero D else c.exposure_time }

/-- The `metadata` member of a `Channel` is a `std::map`. -/
def Channel.Valid {F D : Type} (c : Channel F D) : Prop := c.metadata.IsMap

/-- Every optional field of the channel differs from `0.0f`. -/
def Channel.AllSet {F D : Type} [FloatConv F D] (c : Channel F D) : Prop :=
  FloatConv.eqZero D c.excitation_wavelength = false ∧
  FloatConv.eqZero D c.emission_wavelength = false ∧
  FloatConv.eqZero D c.exposure_time = false

/-! ## Trace -/

/-- The struct `Trace`. -/
structure Trace (F D : Type) where
  channels : List (Channel F D)
  metadata : Metadata D

/-- A default-constructed `Trace`. -/
def Trace.fresh {F D : Type} : Trace F D := { channels := [], metadata := [] }

/-- The function `to_json(json& j, const Trace& t)`. -/
def Trace.to_json {F D : Type} [FloatConv F D] (t : Trace F D) : Json D :=
  .object (Json.pairs [("channels", .array (t.channels.map Channel.to_json)),
    ("metadata", Json.ofMetadata t.metadata)])

/-- The function `from_json(const json& j, Trace& t)`. -/
def Trace.from_json {F D : Type} [FloatConv F D] (j : Json D) (t : Trace F D) :
    Outcome (Trace F D) :=
  (at_get_to j "channels" (from_json_vector Channel.from_json Channel.fresh) (·.channels)
      (fun t a => { t with channels := a }) t).andThen fun t =>
  opt_get_to j "metadata" Metadata.from_json (·.metadata)
      (fun t a => { t with metadata := a }) t

/-- The trace a reader sees after a round trip. -/
def Trace.normalized {F D : Type} [FloatConv F D] (t : Trace F D) : Trace F D :=
  { t with channels := t.channels.map Channel.normalized }

/-- The `metadata` members of a `Trace` and of its channels are `std::map`s. -/
def Trace.Valid {F D : Type} (t : Trace F D) : Prop :=
  t.metadata.IsMap ∧ ∀ c ∈ t.channels, c.Valid

/-! ## SampleDetails and InstrumentDetails -/

/-- The struct `Dataset::SampleDetails`. -/
structure SampleDetails (D : Type) where
  buffer_conditions : String
  other_details : Metadata D

/-- A default-constructed `SampleDetails`. -/
def SampleDetails.fresh {D : Type} : SampleDetails D :=
  { buffer_conditions := "", other_details := [] }

/-- The function `to_json(json& j, const Dataset::SampleDetails& sd)`. -/
def SampleDetails.to_json {D : Type} (sd : SampleDetails D) : Json D :=
  let j := Json.pairs [("other_details", Json.ofMetadata sd.other_details)]
  .object (if sd.buffer_conditions = "" then j
    else Json.assign j "buffer_conditions" (.string sd.buffer_conditions))

/-- The function `from_json(const json& j, Dataset::SampleDetails& sd)`. -/
def SampleDetails.from_json {D : Type} (j : Json D) (sd : SampleDetails D) :
    Outcome (SampleDetails D) :=
  (opt_get_to j "buffer_conditions" from_json_string (·.buffer_conditions)
      (fun sd a => { sd with buffer_conditions := a }) sd).andThen fun sd =>
  opt_get_to j "other_details" Metadata.from_json (·.other_details)
      (fun sd a => { sd with other_details := a }) sd

/-- The struct `Dataset::InstrumentDetails`. -/
structure InstrumentDetails (D : Type) where
  microscope : String
  laser : String
  detector : String
  other_details : Metadata D

/-- A default-constructed `InstrumentDetails`. -/
def InstrumentDetails.fresh {D : Type} : InstrumentDetails D :=
  { microscope := "", laser := "", detector := "", other_details := [] }

/-- The function `to_json(json& j, const Dataset::InstrumentDetails& id)`. -/
def InstrumentDetails.to_json {D : Type} (id : InstrumentDetails D) : Json D :=
  let j := Json.pairs [("other_details", Json.ofMetadata id.other_details)]
  let j := if id.microscope = "" then j else Json.assign j "microscope" (.string id.microscope)
  let j := if id.laser = "" then j else Json.assign j "laser" (.string id.laser)
  .object (if id.detector = "" then j else Json.assign j "detector" (.string id.detector))

/-- The function `from_json(const json& j, Dataset::InstrumentDetails& id)`. -/
def InstrumentDetails.from_json {D : Type} (j : Json D) (id : InstrumentDetails D) :
    Outcome (InstrumentDetails D) :=
  (opt_get_to j "microscope" from_json_string (·.microscope)
      (fun id a => { id with microscope := a }) id).andThen fun id =>
  (opt_get_to j "laser" from_json_string (·.laser)
      (fun id a => { id with laser := a }) id).andThen fun id =>
  (opt_get_to j "detector" from_json_string (·.detector)
      (fun id a => { id with detector := a }) id).andThen fun id =>
  opt_get_to j "other_details" Metadata.from_json (·.other_details)
      (fun id a => { id with other_details := a }) id

/-! ## Dataset -/

/-- The struct `Dataset`. -/
structure Dataset (F D : Type) where
  title : String
  description : String
  experiment_type : String
  authors : List String
  institution : String
  date : String
  traces : List (Trace F D)
  metadata : Metadata D
  sample_details : SampleDetails D
  instrument_details : InstrumentDetails D

/-- A default-constructed `Dataset`. -/
def Dataset.fresh {F D : Type} : Dataset F D :=
  { title := "", description := "", experiment_type := "", authors := [], institution := "",
    date := "", traces := [], metadata := [], sample_details := SampleDetails.fresh,
    instrument_details := InstrumentDetails.fresh }

/-- The members written by `to_json(json& j, const Dataset& d)`. -/
def Dataset.members {F D : Type} [FloatConv F D] (d : Dataset F D) : Json.Members D :=
  let j := Json.pairs [("title", .string d.title),
    ("traces", .array (d.traces.map Trace.to_json)),
    ("metadata", Json.ofMetadata d.metadata),
    ("sample_details", d.sample_details.to_json),
    ("instrument_details", d.instrument_details.to_json)]
  let j := if d.description = "" then j else Json.assign j "description" (.string d.description)
  let j := if d.experiment_type = "" then j
    else Json.assign j "experiment_type" (.string d.experiment_type)
  let j := if d.authors = [] then j
    else Json.assign j "authors" (.array (d.authors.map .string))
  let j := if d.institution = "" then j else Json.assign j "institution" (.string d.institution)
  if d.date = "" then j else Json.assign j "date" (.string d.date)

/-- The function `to_json(json& j, const Dataset& d)`: `j` is assigned an object. -/
def Dataset.to_json {F D : Type} [FloatConv F D] (d : Dataset F D) : Json D :=
  .object d.members

/-- The function `from_json(const json& j, Dataset& d)`. -/
def Dataset.from_json {F D : Type} [FloatConv F D] (j : Json D) (d : Dataset F D) :
    Outcome (Dataset F D) :=
  (at_get_to j "title" from_json_string (·.title)
      (fun d a => { d with title := a }) d).andThen fun d =>
  (at_get_to j "traces" (from_json_vector Trace.from_json Trace.fresh) (·.traces)
      (fun d a => { d with traces := a }) d).andThen fun d =>
  (opt_get_to j "description" from_json_string (·.description)
      (fun d a => { d with description := a }) d).andThen fun d =>
  (opt_get_to j "experiment_type" from_json_string (·.experiment_type)
      (fun d a => { d with experiment_type := a }) d).andThen fun d =>
  (opt_get_to j "authors" (from_json_vector from_json_string "") (·.authors)
      (fun d a => { d with authors := a }) d).andThen fun d =>
  (opt_get_to j "institution" from_json_string (·.institution)
      (fun d a => { d with institution := a }) d).andThen fun d =>
  (opt_get_to j "date" from_json_string (·.date)
      (fun d a => { d with date := a }) d).andThen fun d =>
  (opt_get_to j "metadata" Metadata.from_json (·.metadata)
      (fun d a => { d with metadata := a }) d).andThen fun d =>
  (opt_get_to j "sample_details" SampleDetails.from_json (·.sample_details)
      (fun d a => { d with sample_details := a }) d).andThen fun d =>
  opt_get_to j "instrument_details" InstrumentDetails.from_json (·.instrument_details)
      (fun d a => { d with instrument_details := a }) d

/-- The dataset a reader sees after a round trip. -/
def Dataset.normalized {F D : Type} [FloatConv F D] (d : Dataset F D) : Dataset F D :=
  { d with traces := d.traces.map Trace.normalized }

/-- Every `Metadata` in the dataset is a `std::map`. -/
def Dataset.Valid {F D : Type} (d : Dataset F D) : Prop :=
  d.metadata.IsMap ∧ d.sample_details.other_details.IsMap ∧
  d.instrument_details.other_details.IsMap ∧ ∀ t ∈ d.traces, t.Valid

/-- Every optional field of the dataset, at every level, differs from its default. -/
def Dataset.AllSet {F D : Type} [FloatConv F D] (d : Dataset F D) : Prop :=
  d.description ≠ "" ∧ d.experiment_type ≠ "" ∧ d.authors ≠ [] ∧ d.institution ≠ "" ∧
  d.date ≠ "" ∧ d.sample_details.buffer_conditions ≠ "" ∧
  d.instrument_details.microscope ≠ "" ∧ d.instrument_details.laser ≠ "" ∧
  d.instrument_details.detector ≠ "" ∧ ∀ t ∈ d.traces, ∀ c ∈ t.channels, c.AllSet

/-- The function `read_dataset`, from the parsed document on: the decoded `Dataset` is
returned, or the exception of `from_json` leaves the function. -/
def read_dataset {F D : Type} [FloatConv F D] (j : Json D) : Except JsonError (Dataset F D) :=
  match Dataset.from_json j Dataset.fresh with
  | .ok d => .ok d
  | .threw e _ => .error e

/-! ## Kinds of members -/

/-- The test `j.is_string()`. -/
def Json.is_string {D : Type} : Json D → Bool
  | .string _ => true
  | _ => false

/-- The test `j.is_object()`. -/
def Json.is_object {D : Type} : Json D → Bool
  | .object _ => true
  | _ => false

/-- An array whose elements are all strings. -/
def Json.is_string_array {D : Type} : Json D → Bool
  | .array elems => elems.all Json.is_string
  | _ => false

/-- The member `key` of `j`, when `j` has one, satisfies `p`. -/
def Json.MemberIs {D : Type} (j : Json D) (key : String) (p : Json D → Bool) : Prop :=
  ∀ v, j.at_ key = .ok v → p v = true

/-- The members of a `SampleDetails` value have the kinds the decoder reads. -/
def SampleDetails.RightKind {D : Type} (j : Json D) : Prop :=
  j.MemberIs "buffer_conditions" Json.is_string ∧ j.MemberIs "other_details" Json.is_object

/-- The members of an `InstrumentDetails` value have the kinds the decoder reads. -/
def InstrumentDetails.RightKind {D : Type} (j : Json D) : Prop :=
  j.MemberIs "microscope" Json.is_string ∧ j.MemberIs "laser" Json.is_string ∧
  j.MemberIs "detector" Json.is_string ∧ j.MemberIs "other_details" Json.is_object

/-- The value of a field after `if (j.contains(key)) j.at(key).get_to(field)`, `cur` being
its value before. -/
def optVal {D A : Type} (j : Json D) (key : String) (dec : Json D → A → Outcome A) (cur : A) : A :=
  if j.contains key then
    match j.at_ key with
    | .ok v =>
      match dec v cur with
      | .ok a => a
      | .threw _ a => a
    | .error _ => cur
  else cur

/-- The test `j.is_number()`. -/
def Json.is_number {D : Type} : Json D → Bool
  | .number_integer _ => true
  | .number_unsigned _ => true
  | .number_float _ => true
  | _ => false

/-- The exception that left a `from_json` call, if any. -/
def Outcome.error {T : Type} : Outcome T → Option JsonError
  | .ok _ => none
  | .threw e _ => some e

/-! ## Concrete values -/

/-- The dataset of the example in `main`, before its traces are filled. -/
def exampleDataset : Dataset Int Int :=
  { title := "My FRET Experiment", description := "", experiment_type := "", authors := [],
    institution := "", date := "", traces := [], metadata := [],
    sample_details := { buffer_conditions := "Test Buffer", other_details := [] },
    instrument_details := { microscope := "", laser := "", detector := "", other_details := [] } }

/-- A channel with every optional field set and a nested metadata value. -/
def donorChannel : Channel Int Int :=
  { channel_type := "donor", excitation_wavelength := 532, emission_wavelength := 580,
    exposure_time := 1, data := [1, 2, 3],
    metadata := [("gain", .number_unsigned 2), ("tags", .array [.null, .boolean true])] }

/-- A channel with every optional field at `0.0f` and no metadata. -/
def bareChannel : Channel Int Int :=
  { channel_type := "acceptor", excitation_wavelength := 0, emission_wavelength := 0,
    exposure_time := 0, data := [], metadata := [] }

/-- A dataset with every optional field set. -/
def fullDataset : Dataset Int Int :=
  { title := "T", description := "d", experiment_type := "smFRET", authors := ["A", "B"],
    institution := "I", date := "2024-01-01",
    traces := [{ channels := [donorChannel], metadata := [] }],
    metadata := [("k", .object [("n", .string "v")])],
    sample_details := { buffer_conditions := "PBS", other_details := [("ph", .number_float 7)] },
    instrument_details :=
      { microscope := "m", laser := "l", detector := "c", other_details := [] } }

/-- A dataset with optional fields at their defaults at every level. -/
def sparseDataset : Dataset Int Int :=
  { exampleDataset with traces := [{ channels := [bareChannel, donorChannel], metadata := [] }] }

/-- A channel object with the two required members and nothing else. -/
def goodChannelJson : Json Int :=
  .object [("channel_type", .string "donor"), ("data", .array [.number_float 1])]

/-- A channel object without the required `data` member. -/
def badChannelJson : Json Int :=
  .object [("channel_type", .string "donor")]

end OpenFRET

/-! # Theorems -/

namespace OpenFRET
namespace Json
variable {D : Type}

theorem find_assign (ms : Members D) (k k' : String) (v : Json D) :
    find (assign ms k v) k' = if k = k' then some v else find ms k' := by
  induction ms with
  | nil => simp [assign, find]
  | cons p rest ih =>
    obtain ⟨k0, w⟩ := p
    simp only [assign]
    by_cases h1 : k < k0
    · simp [h1, find]
    · by_cases h2 : k = k0
      · subst h2
        by_cases h3 : k = k' <;> simp [find, h3]
      · simp only [h1, h2, if_false, find, ih]
        by_cases h3 : k0 = k'
        · subst h3; simp [h2]
        · simp [h3]

theorem assign_of_forall_lt (ms : Members D) (k : String) (v : Json D)
    (h : ∀ p ∈ ms, p.1 < k) : assign ms k v = ms ++ [(k, v)] := by
  induction ms with
  | nil => rfl
  | cons p rest ih =>
    obtain ⟨k0, w⟩ := p
    have h0 : k0 < k := h (k0, w) (List.mem_cons_self _ _)
    have h1 : ¬ k < k0 := lt_asymm h0
    have h2 : ¬ k = k0 := fun e => (ne_of_lt h0) e.symm
    have ih1 := ih (fun p hp => h p (List.mem_cons_of_mem _ hp))
    simp [assign, h1, h2, ih1]

theorem foldl_assign_append (m acc : Members D)
    (h : (acc ++ m).Pairwise (fun a b => a.1 < b.1)) :
    m.foldl (fun ms p => assign ms p.1 p.2) acc = acc ++ m := by
  induction m generalizing acc with
  | nil => simp
  | cons p rest ih =>
    have hp : ∀ q ∈ acc, q.1 < p.1 := by
      intro q hq
      rw [List.pairwise_append] at h
      exact h.2.2 q hq p (List.mem_cons_self _ _)
    simp only [List.foldl_cons]
    rw [assign_of_forall_lt acc p.1 p.2 hp]
    have h2 : (acc ++ [(p.1, p.2)] ++ rest).Pairwise (fun a b => a.1 < b.1) := by
      simpa using h
    rw [ih _ h2]
    simp

theorem foldl_assign_of_isMap (m : Metadata D) (h : m.IsMap) :
    m.foldl (fun ms p => assign ms p.1 p.2) [] = m := by
  have := foldl_assign_append m [] h
  simpa using this

end Json

namespace Metadata
variable {D : Type}

theorem to_json_object (m : Metadata D) (ms : Json.Members D) :
    Metadata.to_json (.object ms) m
      = .ok (.object (m.foldl (fun ms p => Json.assign ms p.1 p.2) ms)) := by
  induction m generalizing ms with
  | nil => rfl
  | cons p rest ih =>
    obtain ⟨k, v⟩ := p
    simp [Metadata.to_json, Json.set, ih]

theorem to_json_null_nil : Metadata.to_json (.null : Json D) [] = .ok .null := rfl

theorem to_json_null_cons (p : String × Json D) (m : Metadata D) :
    Metadata.to_json .null (p :: m)
      = .ok (.object ((p :: m).foldl (fun ms p => Json.assign ms p.1 p.2) [])) := by
  obtain ⟨k, v⟩ := p
  simp [Metadata.to_json, Json.set, to_json_object]

theorem to_json_null_of_isMap (m : Metadata D) (h : m.IsMap) :
    Metadata.to_json .null m = .ok (if m.isEmpty then .null else .object m) := by
  cases m with
  | nil => rfl
  | cons p rest =>
    rw [to_json_null_cons, Json.foldl_assign_of_isMap _ h]
    simp

theorem from_json_object_fresh (m : Metadata D) (h : m.IsMap) :
    Metadata.from_json (.object m) [] = .ok m := by
  simp [Metadata.from_json, Json.foldl_assign_of_isMap m h]

end Metadata

theorem json_ofMetadata_nil {D} : Json.ofMetadata ([] : Metadata D) = .null := rfl

theorem json_ofMetadata_of_isMap {D} (m : Metadata D) (h : m.IsMap) :
    Json.ofMetadata m = if m.isEmpty then .null else .object m := by
  simp [Json.ofMetadata, Metadata.to_json_null_of_isMap m h]

theorem metadata_from_json_ofMetadata {D} (m : Metadata D) (h : m.IsMap) :
    Metadata.from_json (Json.ofMetadata m) [] = .ok m := by
  rw [json_ofMetadata_of_isMap m h]
  cases m with
  | nil => rfl
  | cons p rest => simpa using Metadata.from_json_object_fresh (p :: rest) h


section
variable {F D : Type} [FloatConv F D]

theorem channel_members_eq (c : Channel F D) :
    c.members =
      [("channel_type", .string c.channel_type), ("data", .array (c.data.map Json.ofFloat))]
      ++ (if FloatConv.eqZero D c.emission_wavelength then []
          else [("emission_wavelength", Json.ofFloat c.emission_wavelength)])
      ++ (if FloatConv.eqZero D c.excitation_wavelength then []
          else [("excitation_wavelength", Json.ofFloat c.excitation_wavelength)])
      ++ (if FloatConv.eqZero D c.exposure_time then []
          else [("exposure_time", Json.ofFloat c.exposure_time)])
      ++ [("metadata", Json.ofMetadata c.metadata)] := by
  unfold Channel.members
  split_ifs <;> simp +decide [Json.pairs, Json.emplace, Json.assign]

theorem sampleDetails_to_json_eq (sd : SampleDetails D) :
    sd.to_json = .object
      ((if sd.buffer_conditions = "" then []
        else [("buffer_conditions", .string sd.buffer_conditions)])
      ++ [("other_details", Json.ofMetadata sd.other_details)]) := by
  unfold SampleDetails.to_json
  split_ifs <;> simp +decide [Json.pairs, Json.emplace, Json.assign]

theorem instrumentDetails_to_json_eq (id : InstrumentDetails D) :
    id.to_json = .object
      ((if id.detector = "" then [] else [("detector", .string id.detector)])
      ++ (if id.laser = "" then [] else [("laser", .string id.laser)])
      ++ (if id.microscope = "" then [] else [("microscope", .string id.microscope)])
      ++ [("other_details", Json.ofMetadata id.other_details)]) := by
  unfold InstrumentDetails.to_json
  split_ifs <;> simp +decide [Json.pairs, Json.emplace, Json.assign]

theorem trace_to_json_eq (t : Trace F D) :
    t.to_json = .object [("channels", .array (t.channels.map Channel.to_json)),
      ("metadata", Json.ofMetadata t.metadata)] := by
  simp +decide [Trace.to_json, Json.pairs, Json.emplace]

theorem dataset_members_eq (d : Dataset F D) :
    d.members =
      (if d.authors = [] then [] else [("authors", .array (d.authors.map .string))])
      ++ (if d.date = "" then [] else [("date", .string d.date)])
      ++ (if d.description = "" then [] else [("description", .string d.description)])
      ++ (if d.experiment_type = "" then []
          else [("experiment_type", .string d.experiment_type)])
      ++ (if d.institution = "" then [] else [("institution", .string d.institution)])
      ++ [("instrument_details", d.instrument_details.to_json),
          ("metadata", Json.ofMetadata d.metadata),
          ("sample_details", d.sample_details.to_json),
          ("title", .string d.title),
          ("traces", .array (d.traces.map Trace.to_json))] := by
  unfold Dataset.members
  split_ifs <;> simp +decide [Json.pairs, Json.emplace, Json.assign]

end

section
variable {D : Type} {T A : Type}

theorem get_elems_map {B : Type} (dec : Json D → A → Outcome A) (fresh : A) (enc : B → Json D)
    (g : B → A) (l : List B) (h : ∀ b ∈ l, dec (enc b) fresh = .ok (g b)) :
    get_elems dec fresh (l.map enc) = .ok (l.map g) := by
  induction l with
  | nil => rfl
  | cons b rest ih =>
    have hb := h b (List.mem_cons_self _ _)
    have hr := ih (fun x hx => h x (List.mem_cons_of_mem _ hx))
    simp [get_elems, hb, hr]

end

section
variable {F D : Type} [FloatConv F D]

theorem from_json_float_ofFloat (x y : F) :
    from_json_float (Json.ofFloat x : Json D) y = .ok x := by
  simp [from_json_float, Json.ofFloat, FloatConv.narrow_widen]

theorem channel_from_json_to_json (c : Channel F D) (h : c.Valid) :
    Channel.from_json c.to_json Channel.fresh = .ok c.normalized := by
  have hd : get_elems from_json_float (FloatConv.zero D) (c.data.map (Json.ofFloat : F → Json D))
      = .ok c.data := by
    have := get_elems_map (D := D) from_json_float (FloatConv.zero D) Json.ofFloat id c.data
      (fun b _ => from_json_float_ofFloat b _)
    simpa using this
  have hm := metadata_from_json_ofMetadata c.metadata h
  unfold Channel.to_json
  rw [channel_members_eq]
  by_cases h1 : FloatConv.eqZero D c.excitation_wavelength <;>
  by_cases h2 : FloatConv.eqZero D c.emission_wavelength <;>
  by_cases h3 : FloatConv.eqZero D c.exposure_time <;>
  simp [Channel.from_json, at_get_to, opt_get_to, Outcome.andThen, Json.at_, Json.contains,
    Json.find, from_json_string, from_json_vector, from_json_float_ofFloat, hd, hm,
    Channel.normalized, Channel.fresh, h1, h2, h3]

theorem trace_from_json_to_json (t : Trace F D) (h : t.Valid) :
    Trace.from_json t.to_json Trace.fresh = .ok t.normalized := by
  have hc : get_elems Channel.from_json Channel.fresh (t.channels.map Channel.to_json)
      = .ok (t.channels.map Channel.normalized) :=
    get_elems_map Channel.from_json Channel.fresh Channel.to_json Channel.normalized t.channels
      (fun c hc => channel_from_json_to_json c (h.2 c hc))
  have hm := metadata_from_json_ofMetadata t.metadata h.1
  rw [trace_to_json_eq]
  simp [Trace.from_json, at_get_to, opt_get_to, Outcome.andThen, Json.at_, Json.contains,
    Json.find, from_json_vector, hc, hm, Trace.normalized, Trace.fresh]

theorem sampleDetails_from_json_to_json (sd : SampleDetails D) (h : sd.other_details.IsMap) :
    SampleDetails.from_json sd.to_json SampleDetails.fresh = .ok sd := by
  have hm := metadata_from_json_ofMetadata sd.other_details h
  rw [sampleDetails_to_json_eq]
  obtain ⟨bc, od⟩ := sd
  rcases eq_or_ne bc "" with rfl | h1 <;>
  simp_all [SampleDetails.from_json, at_get_to, opt_get_to, Outcome.andThen, Json.at_,
    Json.contains, Json.find, from_json_string, SampleDetails.fresh]

theorem instrumentDetails_from_json_to_json (id : InstrumentDetails D)
    (h : id.other_details.IsMap) :
    InstrumentDetails.from_json id.to_json InstrumentDetails.fresh = .ok id := by
  have hm := metadata_from_json_ofMetadata id.other_details h
  rw [instrumentDetails_to_json_eq]
  obtain ⟨mi, la, de, od⟩ := id
  rcases eq_or_ne mi "" with rfl | h1 <;> rcases eq_or_ne la "" with rfl | h2 <;>
  rcases eq_or_ne de "" with rfl | h3 <;>
  simp_all [InstrumentDetails.from_json, at_get_to, opt_get_to, Outcome.andThen, Json.at_,
    Json.contains, Json.find, from_json_string, InstrumentDetails.fresh]

theorem dataset_from_json_to_json (d : Dataset F D) (h : d.Valid) :
    Dataset.from_json d.to_json Dataset.fresh = .ok d.normalized := by
  have ht : get_elems Trace.from_json Trace.fresh (d.traces.map Trace.to_json)
      = .ok (d.traces.map Trace.normalized) :=
    get_elems_map Trace.from_json Trace.fresh Trace.to_json Trace.normalized d.traces
      (fun t ht => trace_from_json_to_json t (h.2.2.2 t ht))
  have ha : get_elems from_json_string "" (d.authors.map (Json.string : String → Json D))
      = .ok d.authors := by
    have := get_elems_map (D := D) from_json_string "" Json.string id d.authors
      (fun b _ => rfl)
    simpa using this
  have hm := metadata_from_json_ofMetadata d.metadata h.1
  have hs := sampleDetails_from_json_to_json d.sample_details h.2.1
  have hi := instrumentDetails_from_json_to_json d.instrument_details h.2.2.1
  unfold Dataset.to_json
  rw [dataset_members_eq]
  obtain ⟨ti, de, et, au, ins, da, tr, md, sd, idt⟩ := d
  simp only at ht ha hm hs hi
  rcases eq_or_ne de "" with rfl | h1 <;> rcases eq_or_ne et "" with rfl | h2 <;>
  rcases eq_or_ne au [] with rfl | h3 <;> rcases eq_or_ne ins "" with rfl | h4 <;>
  rcases eq_or_ne da "" with rfl | h5 <;>
  simp [Dataset.from_json, at_get_to, opt_get_to, Outcome.andThen, Json.at_,
    Json.contains, Json.find, from_json_string, from_json_vector, Dataset.fresh,
    Dataset.normalized, *]

theorem map_eq_self {A : Type} (f : A → A) (l : List A) (h : ∀ a ∈ l, f a = a) :
    l.map f = l := by
  induction l with
  | nil => rfl
  | cons a rest ih =>
    simp [h a (List.mem_cons_self _ _), ih (fun x hx => h x (List.mem_cons_of_mem _ hx))]

theorem channel_normalized_of_allSet (c : Channel F D) (h : c.AllSet) : c.normalized = c := by
  obtain ⟨ct, ex, em, et, da, md⟩ := c
  obtain ⟨h1, h2, h3⟩ := h
  simp only at h1 h2 h3
  simp [Channel.normalized, h1, h2, h3]

theorem dataset_normalized_of_allSet (d : Dataset F D)
    (h : ∀ t ∈ d.traces, ∀ c ∈ t.channels, c.AllSet) : d.normalized = d := by
  obtain ⟨ti, de, et, au, ins, da, tr, md, sd, idt⟩ := d
  simp only at h
  have ht : ∀ t ∈ tr, Trace.normalized t = t := by
    intro t ht
    obtain ⟨cs, m⟩ := t
    have hc : ∀ c ∈ cs, Channel.normalized c = c :=
      fun c hc => channel_normalized_of_allSet c (h _ ht c hc)
    simp [Trace.normalized, map_eq_self _ _ hc]
  simp [Dataset.normalized, map_eq_self _ _ ht]

theorem channel_to_json_normalized (c : Channel F D) : c.normalized.to_json = c.to_json := by
  unfold Channel.to_json
  rw [channel_members_eq, channel_members_eq]
  by_cases h1 : FloatConv.eqZero D c.excitation_wavelength <;>
  by_cases h2 : FloatConv.eqZero D c.emission_wavelength <;>
  by_cases h3 : FloatConv.eqZero D c.exposure_time <;>
  simp [Channel.normalized, h1, h2, h3, FloatConv.eqZero_zero]

theorem trace_to_json_normalized (t : Trace F D) : t.normalized.to_json = t.to_json := by
  rw [trace_to_json_eq, trace_to_json_eq]
  simp [Trace.normalized, channel_to_json_normalized]

theorem dataset_to_json_normalized (d : Dataset F D) : d.normalized.to_json = d.to_json := by
  unfold Dataset.to_json
  rw [dataset_members_eq, dataset_members_eq]
  simp [Dataset.normalized, trace_to_json_normalized]

theorem channel_find_members (c : Channel F D) :
    Json.find c.members "channel_type" = some (.string c.channel_type) ∧
    Json.find c.members "data" = some (.array (c.data.map Json.ofFloat)) ∧
    Json.find c.members "metadata" = some (Json.ofMetadata c.metadata) ∧
    Json.find c.members "excitation_wavelength" =
      (if FloatConv.eqZero D c.excitation_wavelength then none
       else some (Json.ofFloat c.excitation_wavelength)) ∧
    Json.find c.members "emission_wavelength" =
      (if FloatConv.eqZero D c.emission_wavelength then none
       else some (Json.ofFloat c.emission_wavelength)) ∧
    Json.find c.members "exposure_time" =
      (if FloatConv.eqZero D c.exposure_time then none
       else some (Json.ofFloat c.exposure_time)) ∧
    ∀ k, k ∉ ["channel_type", "data", "metadata", "excitation_wavelength",
        "emission_wavelength", "exposure_time"] → Json.find c.members k = none := by
  rw [channel_members_eq]
  by_cases h1 : FloatConv.eqZero D c.excitation_wavelength <;>
  by_cases h2 : FloatConv.eqZero D c.emission_wavelength <;>
  by_cases h3 : FloatConv.eqZero D c.exposure_time <;>
  simp +contextual [Json.find, h1, h2, h3, eq_comm]

theorem sampleDetails_find_members (sd : SampleDetails D) :
    ∃ ms, sd.to_json = .object ms ∧
    Json.find ms "other_details" = some (Json.ofMetadata sd.other_details) ∧
    Json.find ms "buffer_conditions" =
      (if sd.buffer_conditions = "" then none else some (.string sd.buffer_conditions)) ∧
    ∀ k, k ∉ ["other_details", "buffer_conditions"] → Json.find ms k = none := by
  refine ⟨_, sampleDetails_to_json_eq sd, ?_⟩
  by_cases h1 : sd.buffer_conditions = "" <;>
  simp +contextual [Json.find, h1, eq_comm]

theorem instrumentDetails_find_members (id : InstrumentDetails D) :
    ∃ ms, id.to_json = .object ms ∧
    Json.find ms "other_details" = some (Json.ofMetadata id.other_details) ∧
    Json.find ms "microscope" =
      (if id.microscope = "" then none else some (.string id.microscope)) ∧
    Json.find ms "laser" = (if id.laser = "" then none else some (.string id.laser)) ∧
    Json.find ms "detector" =
      (if id.detector = "" then none else some (.string id.detector)) ∧
    ∀ k, k ∉ ["other_details", "microscope", "laser", "detector"] → Json.find ms k = none := by
  refine ⟨_, instrumentDetails_to_json_eq id, ?_⟩
  by_cases h1 : id.microscope = "" <;> by_cases h2 : id.laser = "" <;>
  by_cases h3 : id.detector = "" <;>
  simp +contextual [Json.find, h1, h2, h3, eq_comm]

theorem dataset_find_members (d : Dataset F D) :
    Json.find d.members "title" = some (.string d.title) ∧
    Json.find d.members "traces" = some (.array (d.traces.map Trace.to_json)) ∧
    Json.find d.members "metadata" = some (Json.ofMetadata d.metadata) ∧
    Json.find d.members "sample_details" = some d.sample_details.to_json ∧
    Json.find d.members "instrument_details" = some d.instrument_details.to_json ∧
    Json.find d.members "description" =
      (if d.description = "" then none else some (.string d.description)) ∧
    Json.find d.members "experiment_type" =
      (if d.experiment_type = "" then none else some (.string d.experiment_type)) ∧
    Json.find d.members "authors" =
      (if d.authors = [] then none else some (.array (d.authors.map .string))) ∧
    Json.find d.members "institution" =
      (if d.institution = "" then none else some (.string d.institution)) ∧
    Json.find d.members "date" = (if d.date = "" then none else some (.string d.date)) ∧
    ∀ k, k ∉ ["title", "traces", "metadata", "sample_details", "instrument_details",
        "description", "experiment_type", "authors", "institution", "date"] →
      Json.find d.members k = none := by
  rw [dataset_members_eq]
  by_cases h1 : d.description = "" <;> by_cases h2 : d.experiment_type = "" <;>
  by_cases h3 : d.authors = [] <;> by_cases h4 : d.institution = "" <;>
  by_cases h5 : d.date = "" <;>
  simp +contextual [Json.find, h1, h2, h3, h4, h5, eq_comm]

/-- C1. Full round trip: a dataset in which every optional field at every level differs from
its default is encoded by `to_json` to a value that `from_json` decodes, into a default-constructed
`Dataset`, without exception and to the same dataset; `read_dataset` returns it. -/
theorem full_round_trip (d : Dataset F D) (hv : d.Valid) (hs : d.AllSet) :
    Dataset.from_json d.to_json Dataset.fresh = .ok d ∧ read_dataset d.to_json = .ok d := by
  have h := dataset_from_json_to_json d hv
  rw [dataset_normalized_of_allSet d hs.2.2.2.2.2.2.2.2.2] at h
  exact ⟨h, by simp [read_dataset, h]⟩

theorem full_round_trip_witness :
    fullDataset.Valid ∧ fullDataset.AllSet ∧
      Dataset.from_json fullDataset.to_json Dataset.fresh = .ok fullDataset ∧
      read_dataset fullDataset.to_json = .ok fullDataset :=
  have hv : fullDataset.Valid := by
    simp +decide [fullDataset, donorChannel, Dataset.Valid, Trace.Valid, Channel.Valid,
      Metadata.IsMap]
  have hs : fullDataset.AllSet := by
    simp +decide [fullDataset, donorChannel, Dataset.AllSet, Channel.AllSet, FloatConv.eqZero]
  ⟨hv, hs, full_round_trip fullDataset hv hs⟩

/-- C2. Sentinel stability: an optional field that holds its default is not written by
`to_json`, at the Dataset, SampleDetails, InstrumentDetails and Channel levels; decoding the
encoding gives a dataset with the default in that field; and encoding the decoded dataset gives
the same JSON value again. -/
theorem sentinel_stability (d : Dataset F D) (hv : d.Valid) :
    ((d.description = "" → d.to_json.contains "description" = false) ∧
      (d.experiment_type = "" → d.to_json.contains "experiment_type" = false) ∧
      (d.authors = [] → d.to_json.contains "authors" = false) ∧
      (d.institution = "" → d.to_json.contains "institution" = false) ∧
      (d.date = "" → d.to_json.contains "date" = false)) ∧
    (d.to_json.at_ "sample_details" = .ok d.sample_details.to_json ∧
      (d.sample_details.buffer_conditions = "" →
        d.sample_details.to_json.contains "buffer_conditions" = false)) ∧
    (d.to_json.at_ "instrument_details" = .ok d.instrument_details.to_json ∧
      (d.instrument_details.microscope = "" →
        d.instrument_details.to_json.contains "microscope" = false) ∧
      (d.instrument_details.laser = "" →
        d.instrument_details.to_json.contains "laser" = false) ∧
      (d.instrument_details.detector = "" →
        d.instrument_details.to_json.contains "detector" = false)) ∧
    (d.to_json.at_ "traces" = .ok (.array (d.traces.map Trace.to_json)) ∧
      ∀ t ∈ d.traces, t.to_json.at_ "channels" = .ok (.array (t.channels.map Channel.to_json)) ∧
        ∀ c ∈ t.channels,
          (FloatConv.eqZero D c.excitation_wavelength = true →
            c.to_json.contains "excitation_wavelength" = false) ∧
          (FloatConv.eqZero D c.emission_wavelength = true →
            c.to_json.contains "emission_wavelength" = false) ∧
          (FloatConv.eqZero D c.exposure_time = true →
            c.to_json.contains "exposure_time" = false)) ∧
    ∃ r, Dataset.from_json d.to_json Dataset.fresh = .ok r ∧
      (d.description = "" → r.description = "") ∧
      (d.experiment_type = "" → r.experiment_type = "") ∧
      (d.authors = [] → r.authors = []) ∧
      (d.institution = "" → r.institution = "") ∧
      (d.date = "" → r.date = "") ∧
      (d.sample_details.buffer_conditions = "" → r.sample_details.buffer_conditions = "") ∧
      (d.instrument_details.microscope = "" → r.instrument_details.microscope = "") ∧
      (d.instrument_details.laser = "" → r.instrument_details.laser = "") ∧
      (d.instrument_details.detector = "" → r.instrument_details.detector = "") ∧
      r.traces.map (fun t => t.channels.map (fun c =>
          (c.excitation_wavelength, c.emission_wavelength, c.exposure_time))) =
        d.traces.map (fun t => t.channels.map (fun c =>
          (if FloatConv.eqZero D c.excitation_wavelength then FloatConv.zero D
            else c.excitation_wavelength,
           if FloatConv.eqZero D c.emission_wavelength then FloatConv.zero D
            else c.emission_wavelength,
           if FloatConv.eqZero D c.exposure_time then FloatConv.zero D
            else c.exposure_time))) ∧
      r.to_json = d.to_json := by
  obtain ⟨ht, htr, hm, hsd, hid, hde, het, hau, hin, hda, -⟩ := dataset_find_members d
  refine ⟨?_, ?_, ?_, ?_, ?_⟩
  · simp +contextual [Dataset.to_json, Json.contains, hde, het, hau, hin, hda]
  · obtain ⟨ms, he, -, hb, -⟩ := sampleDetails_find_members d.sample_details
    rw [he]
    simp +contextual [Dataset.to_json, Json.at_, Json.contains, hsd, he, hb]
  · obtain ⟨ms, he, -, h1, h2, h3, -⟩ := instrumentDetails_find_members d.instrument_details
    rw [he]
    simp +contextual [Dataset.to_json, Json.at_, Json.contains, hid, he, h1, h2, h3]
  · refine ⟨by simp [Dataset.to_json, Json.at_, htr], fun t _ => ⟨?_, fun c _ => ?_⟩⟩
    · simp [trace_to_json_eq, Json.at_, Json.find]
    · obtain ⟨-, -, -, h1, h2, h3, -⟩ := channel_find_members c
      simp +contextual [Channel.to_json, Json.contains, h1, h2, h3]
  · refine ⟨d.normalized, dataset_from_json_to_json d hv, ?_⟩
    simp +contextual [Dataset.normalized, Trace.normalized, Channel.normalized,
      dataset_to_json_normalized, Function.comp_def]
    exact dataset_to_json_normalized d



theorem sentinel_stability_witness :
    sparseDataset.Valid ∧
      sparseDataset.to_json.contains "description" = false ∧
      ∃ r, Dataset.from_json sparseDataset.to_json (Dataset.fresh : Dataset Int Int) = .ok r ∧
        r.description = "" ∧ r.to_json = sparseDataset.to_json :=
  have hv : sparseDataset.Valid := by
    simp +decide [sparseDataset, exampleDataset, bareChannel, donorChannel, Dataset.Valid,
      Trace.Valid, Channel.Valid, Metadata.IsMap]
  have h := sentinel_stability sparseDataset hv
  ⟨hv, h.1.1 rfl, h.2.2.2.2.elim fun r hr => ⟨r, hr.1, hr.2.1 rfl, hr.2.2.2.2.2.2.2.2.2.2.2⟩⟩

/-- C3. Dataset required fields: decoding a JSON object without a `title` member throws the
key-not-found exception (`out_of_range.403`) for "title"; decoding an object with a string
`title` and no `traces` member throws it for "traces"; in both cases `read_dataset` returns
no `Dataset`. -/
theorem dataset_required_fields (ms : Json.Members D) (d0 : Dataset F D) :
    (Json.find ms "title" = none →
      Dataset.from_json (.object ms) d0 = .threw (.out_of_range_403 "title") d0 ∧
      read_dataset (F := F) (.object ms) = .error (.out_of_range_403 "title")) ∧
    (∀ s, Json.find ms "title" = some (.string s) → Json.find ms "traces" = none →
      Dataset.from_json (.object ms) d0
        = .threw (.out_of_range_403 "traces") { d0 with title := s } ∧
      read_dataset (F := F) (.object ms) = .error (.out_of_range_403 "traces")) := by
  constructor
  · intro h
    simp [read_dataset, Dataset.from_json, at_get_to, Outcome.andThen, Json.at_, h]
  · intro s h1 h2
    simp [read_dataset, Dataset.from_json, at_get_to, Outcome.andThen, Json.at_, h1, h2,
      from_json_string]

theorem dataset_required_fields_witness :
    read_dataset (F := Int) (.object [("traces", (.array [] : Json Int))])
        = .error (.out_of_range_403 "title") ∧
      read_dataset (F := Int) (.object [("title", (.string "x" : Json Int))])
        = .error (.out_of_range_403 "traces") :=
  ⟨((dataset_required_fields [("traces", .array [])] Dataset.fresh).1 rfl).2,
   ((dataset_required_fields [("title", .string "x")] Dataset.fresh).2 "x" rfl rfl).2⟩

/-- C5. Metadata round trip: encoding a `Metadata` (any number of entries, any values) and
decoding the result into an empty `Metadata` succeeds and gives the same mapping. -/
theorem metadata_round_trip (m : Metadata D) (h : m.IsMap) :
    ∃ j, Metadata.to_json .null m = .ok j ∧ Metadata.from_json j [] = .ok m := by
  refine ⟨Json.ofMetadata m, ?_, metadata_from_json_ofMetadata m h⟩
  rw [Metadata.to_json_null_of_isMap m h, json_ofMetadata_of_isMap m h]

theorem metadata_round_trip_witness :
    (∃ j, Metadata.to_json .null
        ([("a", .null), ("b", .boolean true), ("c", .number_float 2), ("d", .string "x"),
          ("e", .array [.number_integer (-1), .array []]),
          ("f", .object [("g", .object [("h", .null)])])] : Metadata Int) = .ok j ∧
      Metadata.from_json j [] = .ok
        [("a", .null), ("b", .boolean true), ("c", .number_float 2), ("d", .string "x"),
          ("e", .array [.number_integer (-1), .array []]),
          ("f", .object [("g", .object [("h", .null)])])]) ∧
    ∃ j, Metadata.to_json .null ([] : Metadata Int) = .ok j ∧ Metadata.from_json j [] = .ok [] :=
  ⟨metadata_round_trip _ (by simp +decide [Metadata.IsMap]),
   metadata_round_trip [] (by simp [Metadata.IsMap])⟩

/-- C6. Channel required fields: decoding a JSON object without `channel_type` throws the
key-not-found exception (`out_of_range.403`) for "channel_type"; decoding an object with a
string `channel_type` and no `data` throws it for "data". -/
theorem channel_required_fields (ms : Json.Members D) (c0 : Channel F D) :
    (Json.find ms "channel_type" = none →
      Channel.from_json (.object ms) c0 = .threw (.out_of_range_403 "channel_type") c0) ∧
    (∀ s, Json.find ms "channel_type" = some (.string s) → Json.find ms "data" = none →
      Channel.from_json (.object ms) c0
        = .threw (.out_of_range_403 "data") { c0 with channel_type := s }) := by
  constructor
  · intro h
    simp [Channel.from_json, at_get_to, Outcome.andThen, Json.at_, h]
  · intro s h1 h2
    simp [Channel.from_json, at_get_to, Outcome.andThen, Json.at_, h1, h2, from_json_string]

theorem channel_required_fields_witness :
    Channel.from_json (.object [("data", .array [])]) (Channel.fresh : Channel Int Int)
        = .threw (.out_of_range_403 "channel_type") Channel.fresh ∧
      Channel.from_json (.object [("channel_type", .string "donor")])
          (Channel.fresh : Channel Int Int)
        = .threw (.out_of_range_403 "data") { Channel.fresh with channel_type := "donor" } :=
  ⟨(channel_required_fields [("data", .array [])] Channel.fresh).1 rfl,
   (channel_required_fields [("channel_type", .string "donor")] Channel.fresh).2 "donor"
     rfl rfl⟩

/-- C7. Channel encode shape: `to_json` of a channel is an object with the members
`channel_type`, `data` (the samples in order) and `metadata`; it has `excitation_wavelength`,
`emission_wavelength`, `exposure_time` exactly when the field is not `0.0f`, each with the
field's value, independently of one another; it has no other member. -/
theorem channel_encode_shape (c : Channel F D) :
    ∃ ms, c.to_json = .object ms ∧ ms.Pairwise (fun a b => a.1 < b.1) ∧
      Json.find ms "channel_type" = some (.string c.channel_type) ∧
      Json.find ms "data" =
        some (.array (c.data.map fun x => .number_float (FloatConv.widen x))) ∧
      Json.find ms "metadata" = some (Json.ofMetadata c.metadata) ∧
      Json.find ms "excitation_wavelength" =
        (if FloatConv.eqZero D c.excitation_wavelength then none
         else some (.number_float (FloatConv.widen c.excitation_wavelength))) ∧
      Json.find ms "emission_wavelength" =
        (if FloatConv.eqZero D c.emission_wavelength then none
         else some (.number_float (FloatConv.widen c.emission_wavelength))) ∧
      Json.find ms "exposure_time" =
        (if FloatConv.eqZero D c.exposure_time then none
         else some (.number_float (FloatConv.widen c.exposure_time))) ∧
      ∀ k, k ∉ ["channel_type", "data", "metadata", "excitation_wavelength",
          "emission_wavelength", "exposure_time"] → Json.find ms k = none := by
  refine ⟨c.members, rfl, ?_, channel_find_members c⟩
  rw [channel_members_eq]
  by_cases h1 : FloatConv.eqZero D c.excitation_wavelength <;>
  by_cases h2 : FloatConv.eqZero D c.emission_wavelength <;>
  by_cases h3 : FloatConv.eqZero D c.exposure_time <;>
  simp +decide [h1, h2, h3]

theorem opt_sublist {A : Type} (c : Prop) [Decidable c] (x : A) {l l1 : List A}
    (h : l.Sublist l1) : ((if c then [] else [x]) ++ l).Sublist (x :: l1) := by
  split
  · exact List.Sublist.cons _ h
  · exact List.Sublist.cons₂ _ h

theorem dataset_members_isMap (d : Dataset F D) :
    d.members.Pairwise (fun a b => a.1 < b.1) := by
  have hfull : List.Pairwise (fun a b : String × Json D => a.1 < b.1)
      [("authors", .array (d.authors.map .string)), ("date", .string d.date),
        ("description", .string d.description),
        ("experiment_type", .string d.experiment_type),
        ("institution", .string d.institution),
        ("instrument_details", d.instrument_details.to_json),
        ("metadata", Json.ofMetadata d.metadata),
        ("sample_details", d.sample_details.to_json),
        ("title", .string d.title),
        ("traces", .array (d.traces.map Trace.to_json))] := by
    simp +decide
  refine List.Pairwise.sublist ?_ hfull
  rw [dataset_members_eq]
  simp only [List.append_assoc]
  exact opt_sublist _ _ (opt_sublist _ _ (opt_sublist _ _ (opt_sublist _ _
    (opt_sublist _ _ (List.Sublist.refl _)))))

/-- C8. Dataset encode shape: `to_json` of a dataset is an object with the members `title`,
`traces`, `metadata`, `sample_details` and `instrument_details`; it has `description`,
`experiment_type`, `institution`, `date` exactly when the string is not empty and `authors`
exactly when the sequence is not empty, each with the field's value; it has no other member. -/
theorem dataset_encode_shape (d : Dataset F D) :
    ∃ ms, d.to_json = .object ms ∧ ms.Pairwise (fun a b => a.1 < b.1) ∧
      Json.find ms "title" = some (.string d.title) ∧
      Json.find ms "traces" = some (.array (d.traces.map Trace.to_json)) ∧
      Json.find ms "metadata" = some (Json.ofMetadata d.metadata) ∧
      Json.find ms "sample_details" = some d.sample_details.to_json ∧
      Json.find ms "instrument_details" = some d.instrument_details.to_json ∧
      Json.find ms "description" =
        (if d.description = "" then none else some (.string d.description)) ∧
      Json.find ms "experiment_type" =
        (if d.experiment_type = "" then none else some (.string d.experiment_type)) ∧
      Json.find ms "authors" =
        (if d.authors = [] then none else some (.array (d.authors.map .string))) ∧
      Json.find ms "institution" =
        (if d.institution = "" then none else some (.string d.institution)) ∧
      Json.find ms "date" = (if d.date = "" then none else some (.string d.date)) ∧
      ∀ k, k ∉ ["title", "traces", "metadata", "sample_details", "instrument_details",
          "description", "experiment_type", "authors", "institution", "date"] →
        Json.find ms k = none := by
  exact ⟨d.members, rfl, dataset_members_isMap d, dataset_find_members d⟩

/-- C4. The worked example: `to_json` of the dataset with title "My FRET Experiment", buffer
conditions "Test Buffer", no trace and every other field at its default writes `null`, not
an empty object, for each of the three empty `Metadata` blocks, so the encoding is not the
value the example gives. -/
theorem worked_example_encoding :
    exampleDataset.to_json = .object
        [("instrument_details", .object [("other_details", .null)]),
         ("metadata", .null),
         ("sample_details", .object
            [("buffer_conditions", .string "Test Buffer"), ("other_details", .null)]),
         ("title", .string "My FRET Experiment"),
         ("traces", .array [])] ∧
      exampleDataset.to_json ≠ .object
        [("instrument_details", .object [("other_details", .object [])]),
         ("metadata", .object []),
         ("sample_details", .object
            [("buffer_conditions", .string "Test Buffer"), ("other_details", .object [])]),
         ("title", .string "My FRET Experiment"),
         ("traces", .array [])] := by
  have h : exampleDataset.to_json = .object
        [("instrument_details", .object [("other_details", .null)]),
         ("metadata", .null),
         ("sample_details", .object
            [("buffer_conditions", .string "Test Buffer"), ("other_details", .null)]),
         ("title", .string "My FRET Experiment"),
         ("traces", .array [])] := by
    simp +decide [exampleDataset, Dataset.to_json, dataset_members_eq,
      sampleDetails_to_json_eq, instrumentDetails_to_json_eq, json_ofMetadata_nil]
  refine ⟨h, ?_⟩
  rw [h]
  simp

/-- C9. Metadata encode shape at the empty mapping: `to_json` leaves the `json` it is given
untouched, so the encoding of an empty `Metadata` is `null`, which is not a JSON object. -/
theorem metadata_encode_empty :
    Metadata.to_json .null ([] : Metadata Int) = .ok .null ∧
      Json.ofMetadata ([] : Metadata Int) = .null ∧
      ∀ ms, Json.ofMetadata ([] : Metadata Int) ≠ .object ms := by
  refine ⟨rfl, rfl, fun ms h => ?_⟩
  rw [json_ofMetadata_nil] at h
  exact Json.noConfusion h

end

section
variable {D : Type} {T A : Type}

theorem opt_get_to_ok (ms : Json.Members D) (key : String) (dec : Json D → A → Outcome A)
    (get : T → A) (put : T → A → T) (hlens : ∀ t, put t (get t) = t)
    (h : ∀ v, Json.find ms key = some v → ∀ cur, ∃ a, dec v cur = .ok a) (dst : T) :
    opt_get_to (.object ms) key dec get put dst
      = .ok (put dst (optVal (.object ms) key dec (get dst))) := by
  unfold opt_get_to optVal at_get_to
  cases hf : Json.find ms key with
  | none => simp [Json.contains, hf, hlens]
  | some v =>
    obtain ⟨a, ha⟩ := h v hf (get dst)
    simp [Json.contains, Json.at_, hf, ha]

theorem optVal_none (ms : Json.Members D) (key : String) (dec : Json D → A → Outcome A)
    (cur : A) (h : Json.find ms key = none) : optVal (.object ms) key dec cur = cur := by
  simp [optVal, Json.contains, h]

theorem optVal_some (ms : Json.Members D) (key : String) (dec : Json D → A → Outcome A)
    (cur : A) (v : Json D) (a : A) (h : Json.find ms key = some v) (hd : dec v cur = .ok a) :
    optVal (.object ms) key dec cur = a := by
  simp [optVal, Json.contains, Json.at_, h, hd]

theorem memberIs_object (ms : Json.Members D) (key : String) (p : Json D → Bool) :
    (Json.object ms).MemberIs key p ↔ ∀ v, Json.find ms key = some v → p v = true := by
  unfold Json.MemberIs
  constructor
  · intro h v hv
    exact h v (by simp [Json.at_, hv])
  · intro h v hv
    cases hf : Json.find ms key with
    | none => simp [Json.at_, hf] at hv
    | some w =>
      simp [Json.at_, hf] at hv
      exact hv ▸ h w hf

theorem from_json_string_ok (v : Json D) (h : v.is_string = true) (cur : String) :
    ∃ a, from_json_string v cur = .ok a := by
  cases v <;> simp [Json.is_string] at h
  exact ⟨_, rfl⟩

theorem metadata_from_json_ok (v : Json D) (h : v.is_object = true) (cur : Metadata D) :
    ∃ a, Metadata.from_json v cur = .ok a := by
  cases v <;> simp [Json.is_object] at h
  exact ⟨_, rfl⟩

theorem get_elems_strings (l : List (Json D)) (h : l.all Json.is_string = true) :
    ∃ as : List String, get_elems from_json_string "" l = .ok as := by
  induction l with
  | nil => exact ⟨[], rfl⟩
  | cons x rest ih =>
    simp only [List.all_cons, Bool.and_eq_true] at h
    obtain ⟨as, has⟩ := ih h.2
    obtain ⟨a, ha⟩ := from_json_string_ok x h.1 ""
    exact ⟨a :: as, by simp [get_elems, ha, has]⟩

theorem from_json_authors_ok (v : Json D) (h : v.is_string_array = true) (cur : List String) :
    ∃ a, from_json_vector from_json_string "" v cur = .ok a := by
  cases v <;> simp [Json.is_string_array] at h
  rename_i elems
  obtain ⟨as, has⟩ := get_elems_strings elems (by simpa using h)
  exact ⟨as, by simp [from_json_vector, has]⟩

theorem sampleDetails_from_json_object (ms : Json.Members D)
    (h : SampleDetails.RightKind (.object ms)) (cur : SampleDetails D) :
    SampleDetails.from_json (.object ms) cur = .ok
      { buffer_conditions :=
          optVal (.object ms) "buffer_conditions" from_json_string cur.buffer_conditions
        other_details :=
          optVal (.object ms) "other_details" Metadata.from_json cur.other_details } := by
  obtain ⟨h1, h2⟩ := h
  rw [memberIs_object] at h1 h2
  have e1 := opt_get_to_ok ms "buffer_conditions" from_json_string
    (fun sd : SampleDetails D => sd.buffer_conditions)
    (fun sd a => { sd with buffer_conditions := a }) (fun _ => rfl)
    (fun v hv => from_json_string_ok v (h1 v hv))
  have e2 := opt_get_to_ok ms "other_details" Metadata.from_json
    (fun sd : SampleDetails D => sd.other_details)
    (fun sd a => { sd with other_details := a }) (fun _ => rfl)
    (fun v hv => metadata_from_json_ok v (h2 v hv))
  simp only [SampleDetails.from_json, e1, e2, Outcome.andThen]

theorem sampleDetails_from_json_ok (v : Json D) (h : SampleDetails.RightKind v)
    (cur : SampleDetails D) : ∃ a, SampleDetails.from_json v cur = .ok a := by
  cases v with
  | object ms => exact ⟨_, sampleDetails_from_json_object ms h cur⟩
  | _ => exact ⟨cur, by simp [SampleDetails.from_json, opt_get_to, Json.contains,
      Outcome.andThen]⟩

theorem instrumentDetails_from_json_object (ms : Json.Members D)
    (h : InstrumentDetails.RightKind (.object ms)) (cur : InstrumentDetails D) :
    InstrumentDetails.from_json (.object ms) cur = .ok
      { microscope := optVal (.object ms) "microscope" from_json_string cur.microscope
        laser := optVal (.object ms) "laser" from_json_string cur.laser
        detector := optVal (.object ms) "detector" from_json_string cur.detector
        other_details :=
          optVal (.object ms) "other_details" Metadata.from_json cur.other_details } := by
  obtain ⟨h1, h2, h3, h4⟩ := h
  rw [memberIs_object] at h1 h2 h3 h4
  have e1 := opt_get_to_ok ms "microscope" from_json_string
    (fun id : InstrumentDetails D => id.microscope)
    (fun id a => { id with microscope := a }) (fun _ => rfl)
    (fun v hv => from_json_string_ok v (h1 v hv))
  have e2 := opt_get_to_ok ms "laser" from_json_string
    (fun id : InstrumentDetails D => id.laser)
    (fun id a => { id with laser := a }) (fun _ => rfl)
    (fun v hv => from_json_string_ok v (h2 v hv))
  have e3 := opt_get_to_ok ms "detector" from_json_string
    (fun id : InstrumentDetails D => id.detector)
    (fun id a => { id with detector := a }) (fun _ => rfl)
    (fun v hv => from_json_string_ok v (h3 v hv))
  have e4 := opt_get_to_ok ms "other_details" Metadata.from_json
    (fun id : InstrumentDetails D => id.other_details)
    (fun id a => { id with other_details := a }) (fun _ => rfl)
    (fun v hv => metadata_from_json_ok v (h4 v hv))
  simp only [InstrumentDetails.from_json, e1, e2, e3, e4, Outcome.andThen]

theorem instrumentDetails_from_json_ok (v : Json D) (h : InstrumentDetails.RightKind v)
    (cur : InstrumentDetails D) : ∃ a, InstrumentDetails.from_json v cur = .ok a := by
  cases v with
  | object ms => exact ⟨_, instrumentDetails_from_json_object ms h cur⟩
  | _ => exact ⟨cur, by simp [InstrumentDetails.from_json, opt_get_to, Json.contains,
      Outcome.andThen]⟩

end

section
variable {F D : Type} [FloatConv F D]

theorem dataset_from_json_object (ms : Json.Members D) (s : String) (elems : List (Json D))
    (ts : List (Trace F D)) (d0 : Dataset F D)
    (htitle : Json.find ms "title" = some (.string s))
    (htraces : Json.find ms "traces" = some (.array elems))
    (hts : get_elems Trace.from_json Trace.fresh elems = .ok ts)
    (hdesc : (Json.object ms).MemberIs "description" Json.is_string)
    (hexp : (Json.object ms).MemberIs "experiment_type" Json.is_string)
    (hauth : (Json.object ms).MemberIs "authors" Json.is_string_array)
    (hinst : (Json.object ms).MemberIs "institution" Json.is_string)
    (hdate : (Json.object ms).MemberIs "date" Json.is_string)
    (hmeta : (Json.object ms).MemberIs "metadata" Json.is_object)
    (hsd : ∀ v, Json.find ms "sample_details" = some v → SampleDetails.RightKind v)
    (hid : ∀ v, Json.find ms "instrument_details" = some v → InstrumentDetails.RightKind v) :
    Dataset.from_json (.object ms) d0 = .ok
      { title := s
        traces := ts
        description := optVal (.object ms) "description" from_json_string d0.description
        experiment_type :=
          optVal (.object ms) "experiment_type" from_json_string d0.experiment_type
        authors :=
          optVal (.object ms) "authors" (from_json_vector from_json_string "") d0.authors
        institution := optVal (.object ms) "institution" from_json_string d0.institution
        date := optVal (.object ms) "date" from_json_string d0.date
        metadata := optVal (.object ms) "metadata" Metadata.from_json d0.metadata
        sample_details :=
          optVal (.object ms) "sample_details" SampleDetails.from_json d0.sample_details
        instrument_details :=
          optVal (.object ms) "instrument_details" InstrumentDetails.from_json
            d0.instrument_details } := by
  rw [memberIs_object] at hdesc hexp hauth hinst hdate hmeta
  have e1 := opt_get_to_ok ms "description" from_json_string
    (fun d : Dataset F D => d.description)
    (fun d a => { d with description := a }) (fun _ => rfl)
    (fun v hv => from_json_string_ok v (hdesc v hv))
  have e2 := opt_get_to_ok ms "experiment_type" from_json_string
    (fun d : Dataset F D => d.experiment_type)
    (fun d a => { d with experiment_type := a }) (fun _ => rfl)
    (fun v hv => from_json_string_ok v (hexp v hv))
  have e3 := opt_get_to_ok ms "authors" (from_json_vector from_json_string "")
    (fun d : Dataset F D => d.authors)
    (fun d a => { d with authors := a }) (fun _ => rfl)
    (fun v hv => from_json_authors_ok v (hauth v hv))
  have e4 := opt_get_to_ok ms "institution" from_json_string
    (fun d : Dataset F D => d.institution)
    (fun d a => { d with institution := a }) (fun _ => rfl)
    (fun v hv => from_json_string_ok v (hinst v hv))
  have e5 := opt_get_to_ok ms "date" from_json_string
    (fun d : Dataset F D => d.date)
    (fun d a => { d with date := a }) (fun _ => rfl)
    (fun v hv => from_json_string_ok v (hdate v hv))
  have e6 := opt_get_to_ok ms "metadata" Metadata.from_json
    (fun d : Dataset F D => d.metadata)
    (fun d a => { d with metadata := a }) (fun _ => rfl)
    (fun v hv => metadata_from_json_ok v (hmeta v hv))
  have e7 := opt_get_to_ok ms "sample_details" SampleDetails.from_json
    (fun d : Dataset F D => d.sample_details)
    (fun d a => { d with sample_details := a }) (fun _ => rfl)
    (fun v hv => sampleDetails_from_json_ok v (hsd v hv))
  have e8 := opt_get_to_ok ms "instrument_details" InstrumentDetails.from_json
    (fun d : Dataset F D => d.instrument_details)
    (fun d a => { d with instrument_details := a }) (fun _ => rfl)
    (fun v hv => instrumentDetails_from_json_ok v (hid v hv))
  simp only [Dataset.from_json, e1, e2, e3, e4, e5, e6, e7, e8, Outcome.andThen, at_get_to,
    Json.at_, htitle, htraces, from_json_string, from_json_vector, hts]

/-- C10. Optional-field decode: for a JSON object with a string `title`, a `traces` array whose
elements decode, and optional members of the right kinds, `from_json` into a default-constructed
`Dataset` succeeds; `description`, `experiment_type`, `institution`, `date` and `authors` hold
the member's value when the object has the member and the default when it has not; absent
`sample_details`, `instrument_details` and `metadata` leave default-constructed records and an
empty `Metadata`. -/
theorem optional_field_decode (ms : Json.Members D) (s : String) (elems : List (Json D))
    (ts : List (Trace F D))
    (htitle : Json.find ms "title" = some (.string s))
    (htraces : Json.find ms "traces" = some (.array elems))
    (hts : get_elems Trace.from_json Trace.fresh elems = .ok ts)
    (hdesc : (Json.object ms).MemberIs "description" Json.is_string)
    (hexp : (Json.object ms).MemberIs "experiment_type" Json.is_string)
    (hauth : (Json.object ms).MemberIs "authors" Json.is_string_array)
    (hinst : (Json.object ms).MemberIs "institution" Json.is_string)
    (hdate : (Json.object ms).MemberIs "date" Json.is_string)
    (hmeta : (Json.object ms).MemberIs "metadata" Json.is_object)
    (hsd : ∀ v, Json.find ms "sample_details" = some v → SampleDetails.RightKind v)
    (hid : ∀ v, Json.find ms "instrument_details" = some v → InstrumentDetails.RightKind v) :
    ∃ d : Dataset F D, Dataset.from_json (.object ms) Dataset.fresh = .ok d ∧
      d.title = s ∧ d.traces = ts ∧
      (∀ x, Json.find ms "description" = some (.string x) → d.description = x) ∧
      (Json.find ms "description" = none → d.description = "") ∧
      (∀ x, Json.find ms "experiment_type" = some (.string x) → d.experiment_type = x) ∧
      (Json.find ms "experiment_type" = none → d.experiment_type = "") ∧
      (∀ x, Json.find ms "institution" = some (.string x) → d.institution = x) ∧
      (Json.find ms "institution" = none → d.institution = "") ∧
      (∀ x, Json.find ms "date" = some (.string x) → d.date = x) ∧
      (Json.find ms "date" = none → d.date = "") ∧
      (∀ l : List String, Json.find ms "authors" = some (.array (l.map .string)) →
        d.authors = l) ∧
      (Json.find ms "authors" = none → d.authors = []) ∧
      (Json.find ms "sample_details" = none → d.sample_details = SampleDetails.fresh) ∧
      (Json.find ms "instrument_details" = none →
        d.instrument_details = InstrumentDetails.fresh) ∧
      (Json.find ms "metadata" = none → d.metadata = []) := by
  refine ⟨_, dataset_from_json_object ms s elems ts Dataset.fresh htitle htraces hts hdesc hexp
    hauth hinst hdate hmeta hsd hid, rfl, rfl, ?_⟩
  have hstr : ∀ key x cur, Json.find ms key = some (.string x) →
      optVal (.object ms) key from_json_string cur = x :=
    fun key x cur h => optVal_some ms key from_json_string cur _ x h rfl
  refine ⟨fun x h => hstr _ x _ h, fun h => optVal_none ms _ _ _ h,
    fun x h => hstr _ x _ h, fun h => optVal_none ms _ _ _ h,
    fun x h => hstr _ x _ h, fun h => optVal_none ms _ _ _ h,
    fun x h => hstr _ x _ h, fun h => optVal_none ms _ _ _ h,
    fun l h => ?_, fun h => optVal_none ms _ _ _ h,
    fun h => optVal_none ms _ _ _ h, fun h => optVal_none ms _ _ _ h,
    fun h => optVal_none ms _ _ _ h⟩
  refine optVal_some ms _ _ _ _ l h ?_
  have := get_elems_map (D := D) from_json_string "" Json.string id l (fun b _ => rfl)
  simp only [List.map_id] at this
  simp [from_json_vector, this, Dataset.fresh]

theorem optional_field_decode_witness :
    ∃ d : Dataset Int Int,
      Dataset.from_json
        (.object [("authors", .array [.string "A", .string "B"]), ("description", .string "d"),
          ("title", .string "T"), ("traces", .array [])]) Dataset.fresh = .ok d ∧
      d.title = "T" ∧ d.traces = [] ∧ d.description = "d" ∧ d.institution = "" ∧
      d.authors = ["A", "B"] ∧ d.sample_details = SampleDetails.fresh ∧ d.metadata = [] :=
  (optional_field_decode (F := Int)
    [("authors", .array [.string "A", .string "B"]), ("description", .string "d"),
      ("title", .string "T"), ("traces", .array [])] "T" [] [] rfl rfl rfl
    (by simp [Json.MemberIs, Json.at_, Json.find, Json.is_string])
    (by simp [Json.MemberIs, Json.at_, Json.find])
    (by simp [Json.MemberIs, Json.at_, Json.find, Json.is_string_array, Json.is_string])
    (by simp [Json.MemberIs, Json.at_, Json.find])
    (by simp [Json.MemberIs, Json.at_, Json.find])
    (by simp [Json.MemberIs, Json.at_, Json.find])
    (by simp [Json.find]) (by simp [Json.find])).elim
  fun d ⟨h0, h1, h2, h3, _, _, _, _, h8, _, _, h11, _, h13, _, h15⟩ =>
    ⟨d, h0, h1, h2, h3 "d" rfl, h8 rfl, h11 ["A", "B"] rfl, h13 rfl, h15 rfl⟩

end

section
variable {D : Type} {T A : Type}
theorem get_elems_ok_iff (dec : Json D → A → Outcome A) (fresh : A) (l : List (Json D))
    (as : List A) :
    get_elems dec fresh l = .ok as ↔ List.Forall₂ (fun x a => dec x fresh = .ok a) l as := by
  induction l generalizing as with
  | nil =>
    cases as <;> simp [get_elems]
  | cons x xs ih =>
    cases hx : dec x fresh with
    | threw e a =>
      simp only [get_elems, hx]
      constructor
      · intro h; cases h
      · intro h
        cases h with
        | cons h1 _ => rw [hx] at h1; cases h1
    | ok a =>
      cases hr : get_elems dec fresh xs with
      | error e =>
        simp only [get_elems, hx, hr]
        constructor
        · intro h; cases h
        · intro h
          cases h with
          | cons h1 h2 =>
            rw [← ih] at h2
            rw [hr] at h2; cases h2
      | ok bs =>
        simp only [get_elems, hx, hr]
        constructor
        · intro h
          cases h
          exact List.Forall₂.cons hx ((ih bs).1 hr)
        · intro h
          cases h with
          | cons h1 h2 =>
            rw [hx] at h1
            cases h1
            rw [← ih, hr] at h2
            cases h2
            rfl

theorem get_elems_ok_iff_forall (dec : Json D → A → Outcome A) (fresh : A) (l : List (Json D)) :
    (∃ as, get_elems dec fresh l = .ok as) ↔ ∀ x ∈ l, ∃ a, dec x fresh = .ok a := by
  induction l with
  | nil => simp [get_elems]
  | cons x xs ih =>
    constructor
    · rintro ⟨as, h⟩
      rw [get_elems_ok_iff] at h
      cases h with
      | cons h1 h2 =>
        rw [← get_elems_ok_iff] at h2
        intro y hy
        rcases List.mem_cons.1 hy with rfl | hy
        · exact ⟨_, h1⟩
        · exact ih.1 ⟨_, h2⟩ y hy
    · intro h
      obtain ⟨a, ha⟩ := h x (List.mem_cons_self _ _)
      obtain ⟨as, has⟩ := ih.2 (fun y hy => h y (List.mem_cons_of_mem _ hy))
      exact ⟨a :: as, by simp [get_elems, ha, has]⟩

/-- The first element that does not decode decides the exception of the whole array. -/
theorem get_elems_first_error (dec : Json D → A → Outcome A) (fresh : A)
    (pre post : List (Json D)) (bad : Json D) (e : JsonError) (a : A)
    (hpre : ∀ x ∈ pre, ∃ c, dec x fresh = .ok c) (hbad : dec bad fresh = .threw e a) :
    get_elems dec fresh (pre ++ bad :: post) = .error e := by
  induction pre with
  | nil => simp [get_elems, hbad]
  | cons x xs ih =>
    obtain ⟨c, hc⟩ := hpre x (List.mem_cons_self _ _)
    have := ih (fun y hy => hpre y (List.mem_cons_of_mem _ hy))
    simp [get_elems, hc, this]

end

section
variable {F D : Type} [FloatConv F D]

/-- What `from_json(const json&, Trace&)` does on an object whose `channels` is an array. -/
theorem trace_from_json_array (ms : Json.Members D) (elems : List (Json D)) (t0 : Trace F D)
    (h : Json.find ms "channels" = some (.array elems)) :
    Trace.from_json (.object ms) t0 =
      match get_elems Channel.from_json (Channel.fresh : Channel F D) elems with
      | .error e => .threw e t0
      | .ok cs =>
        opt_get_to (.object ms) "metadata" Metadata.from_json (·.metadata)
          (fun t a => { t with metadata := a }) { t0 with channels := cs } := by
  cases hg : get_elems Channel.from_json (Channel.fresh : Channel F D) elems <;>
  simp [Trace.from_json, at_get_to, Outcome.andThen, Json.at_, h, from_json_vector, hg]

/-- C11. Trace decode: an object without `channels` makes `from_json` throw the key-not-found
exception for "channels"; when `channels` is an array, decoding into a default-constructed
`Trace` succeeds exactly when every element decodes as a `Channel` and `metadata`, if present,
decodes, and the decoded trace then has one channel per element, the i-th being the decoding
of the i-th element. -/
theorem trace_decode (ms : Json.Members D) :
    (Json.find ms "channels" = none → ∀ t0 : Trace F D,
      Trace.from_json (.object ms) t0 = .threw (.out_of_range_403 "channels") t0) ∧
    (∀ elems, Json.find ms "channels" = some (.array elems) →
      ((∃ t : Trace F D, Trace.from_json (.object ms) Trace.fresh = .ok t) ↔
        (∀ x ∈ elems, ∃ c : Channel F D, Channel.from_json x Channel.fresh = .ok c) ∧
        (∀ v, Json.find ms "metadata" = some v → ∃ m, Metadata.from_json v [] = .ok m)) ∧
      (∀ t : Trace F D, Trace.from_json (.object ms) Trace.fresh = .ok t →
        t.channels.length = elems.length ∧
        List.Forall₂ (fun x c => Channel.from_json x Channel.fresh = .ok c)
          elems t.channels)) := by
  constructor
  · intro h t0
    simp [Trace.from_json, at_get_to, Outcome.andThen, Json.at_, h]
  · intro elems h
    have key := trace_from_json_array (F := F) ms elems Trace.fresh h
    cases hg : get_elems Channel.from_json (Channel.fresh : Channel F D) elems with
    | error e =>
      rw [hg] at key
      have hno : ¬ ∀ x ∈ elems, ∃ c : Channel F D, Channel.from_json x Channel.fresh = .ok c := by
        rw [← get_elems_ok_iff_forall]
        rintro ⟨as, has⟩
        rw [hg] at has
        cases has
      refine ⟨⟨?_, fun hh => absurd hh.1 hno⟩, ?_⟩
      · rintro ⟨t, ht⟩
        rw [key] at ht
        cases ht
      · intro t ht
        rw [key] at ht
        cases ht
    | ok cs =>
      rw [hg] at key
      have hall : ∀ x ∈ elems, ∃ c : Channel F D, Channel.from_json x Channel.fresh = .ok c :=
        (get_elems_ok_iff_forall _ _ _).1 ⟨cs, hg⟩
      have hf2 := (get_elems_ok_iff _ _ _ _).1 hg
      cases hm : Json.find ms "metadata" with
      | none =>
        have hres : Trace.from_json (.object ms) (Trace.fresh : Trace F D)
            = .ok { (Trace.fresh : Trace F D) with channels := cs } := by
          rw [key]; simp [opt_get_to, Json.contains, hm]
        refine ⟨⟨fun _ => ⟨hall, by simp⟩, fun _ => ⟨_, hres⟩⟩, ?_⟩
        intro t ht
        rw [hres] at ht
        cases ht
        exact ⟨hf2.length_eq.symm, hf2⟩
      | some v =>
        cases hd : Metadata.from_json v ([] : Metadata D) with
        | ok m =>
          have hres : Trace.from_json (.object ms) (Trace.fresh : Trace F D)
              = .ok { channels := cs, metadata := m } := by
            rw [key]
            simp [opt_get_to, at_get_to, Json.contains, Json.at_, hm, Trace.fresh, hd]
          refine ⟨⟨fun _ => ⟨hall, ?_⟩, fun _ => ⟨_, hres⟩⟩, ?_⟩
          · intro w hw
            cases hw
            exact ⟨m, hd⟩
          · intro t ht
            rw [hres] at ht
            cases ht
            exact ⟨hf2.length_eq.symm, hf2⟩
        | threw e m =>
          have hres : Trace.from_json (.object ms) (Trace.fresh : Trace F D)
              = .threw e { channels := cs, metadata := m } := by
            rw [key]
            simp [opt_get_to, at_get_to, Json.contains, Json.at_, hm, Trace.fresh, hd]
          refine ⟨⟨?_, ?_⟩, ?_⟩
          · rintro ⟨t, ht⟩
            rw [hres] at ht
            cases ht
          · rintro ⟨-, h2⟩
            obtain ⟨m2, hm2⟩ := h2 v rfl
            rw [hd] at hm2
            cases hm2
          · intro t ht
            rw [hres] at ht
            cases ht

theorem goodChannelJson_decodes :
    ∃ c : Channel Int Int, Channel.from_json goodChannelJson Channel.fresh = .ok c :=
  ⟨{ (Channel.fresh : Channel Int Int) with channel_type := "donor", data := [1] }, by
    simp [goodChannelJson, Channel.from_json, at_get_to, opt_get_to, Outcome.andThen, Json.at_,
      Json.contains, Json.find, from_json_string, from_json_vector, get_elems, from_json_float,
      FloatConv.narrow, Channel.fresh]⟩

theorem trace_decode_witness :
    Trace.from_json (.object [("metadata", (.null : Json Int))]) (Trace.fresh : Trace Int Int)
        = .threw (.out_of_range_403 "channels") Trace.fresh ∧
      ∃ t : Trace Int Int, Trace.from_json
          (.object [("channels", .array [goodChannelJson, goodChannelJson])]) Trace.fresh
            = .ok t ∧ t.channels.length = 2 :=
  have h := (trace_decode (F := Int)
    [("channels", .array [goodChannelJson, goodChannelJson])]).2
      [goodChannelJson, goodChannelJson] rfl
  have hex := h.1.2 ⟨by simpa using goodChannelJson_decodes, by simp [Json.find]⟩
  ⟨(trace_decode (F := Int) [("metadata", .null)]).1 rfl Trace.fresh,
   hex.elim fun t ht => ⟨t, ht, (h.2 t ht).1⟩⟩

theorem badChannelJson_throws :
    Channel.from_json badChannelJson (Channel.fresh : Channel Int Int)
      = .threw (.out_of_range_403 "data") { Channel.fresh with channel_type := "donor" } := by
  simp [badChannelJson, Channel.from_json, at_get_to, Outcome.andThen, Json.at_, Json.find,
    from_json_string]

/-- C12, as stated, fails: a channel without `data` as the only element and as the third
element of `channels` make `from_json(const json&, Trace&)` throw the same exception, which is
the exception of the `Channel` decoder with no position in it. -/
theorem positional_context_counterexample :
    (Channel.from_json badChannelJson (Channel.fresh : Channel Int Int)).error
        = some (.out_of_range_403 "data") ∧
      (Trace.from_json (.object [("channels", .array [badChannelJson])])
        (Trace.fresh : Trace Int Int)).error = some (.out_of_range_403 "data") ∧
      (Trace.from_json
        (.object [("channels", .array [goodChannelJson, goodChannelJson, badChannelJson])])
        (Trace.fresh : Trace Int Int)).error = some (.out_of_range_403 "data") := by
  obtain ⟨c, hc⟩ := goodChannelJson_decodes
  refine ⟨by rw [badChannelJson_throws]; rfl, ?_, ?_⟩
  · simp [Trace.from_json, at_get_to, Outcome.andThen, Json.at_, Json.find, from_json_vector,
      get_elems, badChannelJson_throws, Outcome.error]
  · simp [Trace.from_json, at_get_to, Outcome.andThen, Json.at_, Json.find, from_json_vector,
      get_elems, badChannelJson_throws, hc, Outcome.error]

/-- C12, amended: when the element at position `pre.length` of `channels` is the first on
which the `Channel` decoder throws, `from_json(const json&, Trace&)` throws that same exception,
unchanged: no position is added to it, and the destination is left as it was. -/
theorem trace_error_unchanged (ms : Json.Members D) (pre post : List (Json D)) (bad : Json D)
    (e : JsonError) (c : Channel F D) (t0 : Trace F D)
    (hch : Json.find ms "channels" = some (.array (pre ++ bad :: post)))
    (hpre : ∀ x ∈ pre, ∃ c : Channel F D, Channel.from_json x Channel.fresh = .ok c)
    (hbad : Channel.from_json bad Channel.fresh = .threw e c) :
    Trace.from_json (.object ms) t0 = .threw e t0 := by
  rw [trace_from_json_array ms _ t0 hch,
    get_elems_first_error Channel.from_json Channel.fresh pre post bad e c hpre hbad]

theorem trace_error_unchanged_witness :
    Trace.from_json
        (.object [("channels", .array [goodChannelJson, goodChannelJson, badChannelJson])])
        (Trace.fresh : Trace Int Int) = .threw (.out_of_range_403 "data") Trace.fresh :=
  trace_error_unchanged [("channels", .array [goodChannelJson, goodChannelJson, badChannelJson])]
    [goodChannelJson, goodChannelJson] [] badChannelJson _ _ Trace.fresh rfl
    (by simpa using goodChannelJson_decodes) badChannelJson_throws


theorem from_json_float_number (v : Json D) (h : v.is_number = true) (cur : F) :
    ∃ a, from_json_float v cur = .ok a := by
  cases v <;> simp [Json.is_number] at h <;> exact ⟨_, rfl⟩

theorem get_elems_numbers (l : List (Json D)) (h : l.all Json.is_number = true) :
    ∃ xs : List F, get_elems from_json_float (FloatConv.zero D) l = .ok xs := by
  rw [get_elems_ok_iff_forall]
  intro x hx
  exact from_json_float_number x (List.all_eq_true.1 h x hx) _

theorem opt_get_to_float_string {T : Type} (ms : Json.Members D) (key x : String)
    (get : T → F) (put : T → F → T) (h : Json.find ms key = some (.string x)) (dst : T) :
    opt_get_to (.object ms) key from_json_float get put dst
      = .threw (.type_error_302 "number" "string") (put dst (get dst)) := by
  simp [opt_get_to, at_get_to, Json.contains, Json.at_, h, from_json_float, Json.type_name]

theorem opt_get_to_float_ok {T : Type} (ms : Json.Members D) (key : String)
    (get : T → F) (put : T → F → T) (hlens : ∀ t, put t (get t) = t)
    (hk : (Json.object ms).MemberIs key (fun v => v.is_number || v.is_string))
    (hs : ¬ ∃ x, Json.find ms key = some (.string x)) (dst : T) :
    opt_get_to (.object ms) key from_json_float get put dst
      = .ok (put dst (optVal (.object ms) key from_json_float (get dst))) := by
  refine opt_get_to_ok ms key from_json_float get put hlens ?_ dst
  intro v hv cur
  rw [memberIs_object] at hk
  have := hk v hv
  cases v <;> simp [Json.is_number, Json.is_string] at this
  · exact ⟨_, rfl⟩
  · exact ⟨_, rfl⟩
  · exact ⟨_, rfl⟩
  · exact absurd ⟨_, hv⟩ hs

/-- C13, as stated, fails: a string in `excitation_wavelength` and a string in `exposure_time`
make `from_json(const json&, Channel&)` throw the same exception, `type_error.302` "type must
be number, but is string", which carries the expected and the actual kind and no field name. -/
theorem numeric_mismatch_counterexample :
    (Channel.from_json
        (.object [("channel_type", .string "donor"), ("data", .array [.number_float 1]),
          ("excitation_wavelength", .string "532")])
        (Channel.fresh : Channel Int Int)).error
      = some (.type_error_302 "number" "string") ∧
    (Channel.from_json
        (.object [("channel_type", .string "donor"), ("data", .array [.number_float 1]),
          ("exposure_time", .string "532")])
        (Channel.fresh : Channel Int Int)).error
      = some (.type_error_302 "number" "string") := by
  constructor <;>
  simp [Channel.from_json, at_get_to, opt_get_to, Outcome.andThen, Json.at_, Json.contains,
    Json.find, from_json_string, from_json_vector, get_elems, from_json_float, Json.type_name,
    Outcome.error]

/-- C13, amended: for a Channel object with a string `channel_type`, a `data` array of numbers
and one of `excitation_wavelength`, `emission_wavelength`, `exposure_time` a string (the
first two being absent, a number or a string), `from_json` throws `type_error.302`, which
names the expected kind (number) and the actual kind (string); it does not name the field. -/
theorem numeric_type_mismatch (ms : Json.Members D) (s : String) (elems : List (Json D))
    (c0 : Channel F D)
    (hct : Json.find ms "channel_type" = some (.string s))
    (hdata : Json.find ms "data" = some (.array elems))
    (hnum : elems.all Json.is_number = true)
    (h1 : (Json.object ms).MemberIs "excitation_wavelength"
      (fun v => v.is_number || v.is_string))
    (h2 : (Json.object ms).MemberIs "emission_wavelength"
      (fun v => v.is_number || v.is_string))
    (hstr : (∃ x, Json.find ms "excitation_wavelength" = some (.string x)) ∨
      (∃ x, Json.find ms "emission_wavelength" = some (.string x)) ∨
      (∃ x, Json.find ms "exposure_time" = some (.string x))) :
    ∃ c, Channel.from_json (.object ms) c0 = .threw (.type_error_302 "number" "string") c := by
  obtain ⟨xs, hxs⟩ := get_elems_numbers (F := F) elems hnum
  have e0 : ∀ dst : Channel F D, at_get_to (.object ms) "channel_type" from_json_string
      (fun c : Channel F D => c.channel_type) (fun c a => { c with channel_type := a }) dst
      = .ok { dst with channel_type := s } := by
    intro dst; simp [at_get_to, Json.at_, hct, from_json_string]
  have ed : ∀ dst : Channel F D, at_get_to (.object ms) "data"
      (from_json_vector from_json_float (FloatConv.zero D))
      (fun c : Channel F D => c.data) (fun c a => { c with data := a }) dst
      = .ok { dst with data := xs } := by
    intro dst; simp [at_get_to, Json.at_, hdata, from_json_vector, hxs]
  by_cases hs1 : ∃ x, Json.find ms "excitation_wavelength" = some (.string x)
  · obtain ⟨x, hx⟩ := hs1
    have x1 := opt_get_to_float_string ms "excitation_wavelength" x
      (fun c : Channel F D => c.excitation_wavelength)
      (fun c a => { c with excitation_wavelength := a }) hx
    simp only [Channel.from_json, e0, ed, x1, Outcome.andThen]
    exact ⟨_, rfl⟩
  · have e1 := opt_get_to_float_ok ms "excitation_wavelength"
      (fun c : Channel F D => c.excitation_wavelength)
      (fun c a => { c with excitation_wavelength := a }) (fun _ => rfl) h1 hs1
    by_cases hs2 : ∃ x, Json.find ms "emission_wavelength" = some (.string x)
    · obtain ⟨x, hx⟩ := hs2
      have x2 := opt_get_to_float_string ms "emission_wavelength" x
        (fun c : Channel F D => c.emission_wavelength)
        (fun c a => { c with emission_wavelength := a }) hx
      simp only [Channel.from_json, e0, ed, e1, x2, Outcome.andThen]
      exact ⟨_, rfl⟩
    · have e2 := opt_get_to_float_ok ms "emission_wavelength"
        (fun c : Channel F D => c.emission_wavelength)
        (fun c a => { c with emission_wavelength := a }) (fun _ => rfl) h2 hs2
      have hs3 : ∃ x, Json.find ms "exposure_time" = some (.string x) := by
        rcases hstr with h | h | h
        · exact absurd h hs1
        · exact absurd h hs2
        · exact h
      obtain ⟨x, hx⟩ := hs3
      have x3 := opt_get_to_float_string ms "exposure_time" x
        (fun c : Channel F D => c.exposure_time)
        (fun c a => { c with exposure_time := a }) hx
      simp only [Channel.from_json, e0, ed, e1, e2, x3, Outcome.andThen]
      exact ⟨_, rfl⟩

theorem numeric_type_mismatch_witness :
    ∃ c, Channel.from_json
        (.object [("channel_type", .string "donor"), ("data", .array [.number_float 1]),
          ("emission_wavelength", .string "580"), ("excitation_wavelength", .number_float 532)])
        (Channel.fresh : Channel Int Int) = .threw (.type_error_302 "number" "string") c :=
  numeric_type_mismatch
    [("channel_type", .string "donor"), ("data", .array [.number_float 1]),
      ("emission_wavelength", .string "580"), ("excitation_wavelength", .number_float 532)]
    "donor" [.number_float 1] Channel.fresh rfl rfl rfl
    (by simp [Json.MemberIs, Json.at_, Json.find, Json.is_number])
    (by simp [Json.MemberIs, Json.at_, Json.find, Json.is_string])
    (Or.inr (Or.inl ⟨"580", rfl⟩))

end

section
variable {D : Type} {T A : Type}

theorem error_eq_some_iff (o : Outcome T) (e : JsonError) :
    o.error = some e ↔ ∃ d, o = .threw e d := by
  cases o <;> simp [Outcome.error]

theorem error_andThen_congr (o1 o2 : Outcome T) (g : T → Outcome T)
    (h : o1.error = o2.error) (hg : ∀ x y, (g x).error = (g y).error) :
    (o1.andThen g).error = (o2.andThen g).error := by
  cases o1 with
  | ok a =>
    cases o2 with
    | ok b => exact hg a b
    | threw e b => simp [Outcome.error] at h
  | threw e a =>
    cases o2 with
    | ok b => simp [Outcome.error] at h
    | threw e2 b => simpa [Outcome.error, Outcome.andThen] using h

theorem at_get_to_error_congr (j : Json D) (key : String) (dec : Json D → A → Outcome A)
    (get : T → A) (put : T → A → T) (hdec : ∀ v x y, (dec v x).error = (dec v y).error)
    (a b : T) :
    (at_get_to j key dec get put a).error = (at_get_to j key dec get put b).error := by
  unfold at_get_to
  cases j.at_ key with
  | error e => rfl
  | ok v =>
    have := hdec v (get a) (get b)
    cases h1 : dec v (get a) <;> cases h2 : dec v (get b) <;>
      simp_all [Outcome.error]

theorem opt_get_to_error_congr (j : Json D) (key : String) (dec : Json D → A → Outcome A)
    (get : T → A) (put : T → A → T) (hdec : ∀ v x y, (dec v x).error = (dec v y).error)
    (a b : T) :
    (opt_get_to j key dec get put a).error = (opt_get_to j key dec get put b).error := by
  unfold opt_get_to
  split
  · exact at_get_to_error_congr j key dec get put hdec a b
  · rfl

theorem from_json_string_error_congr (v : Json D) (x y : String) :
    (from_json_string v x).error = (from_json_string v y).error := by
  cases v <;> rfl

theorem from_json_vector_error_congr (dec : Json D → A → Outcome A) (fresh : A) (v : Json D)
    (x y : List A) :
    (from_json_vector dec fresh v x).error = (from_json_vector dec fresh v y).error := by
  cases v <;> try rfl
  rename_i elems
  simp only [from_json_vector]
  cases get_elems dec fresh elems <;> rfl

theorem metadata_from_json_error_congr (v : Json D) (x y : Metadata D) :
    (Metadata.from_json v x).error = (Metadata.from_json v y).error := by
  cases v <;> try rfl
  rename_i elems
  cases elems <;> rfl

theorem sampleDetails_from_json_error_congr (v : Json D) (x y : SampleDetails D) :
    (SampleDetails.from_json v x).error = (SampleDetails.from_json v y).error := by
  unfold SampleDetails.from_json
  refine error_andThen_congr _ _ _ (opt_get_to_error_congr _ _ _ _ _
    from_json_string_error_congr _ _) fun a b => ?_
  exact opt_get_to_error_congr _ _ _ _ _ metadata_from_json_error_congr _ _

theorem instrumentDetails_from_json_error_congr (v : Json D) (x y : InstrumentDetails D) :
    (InstrumentDetails.from_json v x).error = (InstrumentDetails.from_json v y).error := by
  unfold InstrumentDetails.from_json
  refine error_andThen_congr _ _ _ (opt_get_to_error_congr _ _ _ _ _
    from_json_string_error_congr _ _) fun a b => ?_
  refine error_andThen_congr _ _ _ (opt_get_to_error_congr _ _ _ _ _
    from_json_string_error_congr _ _) fun a b => ?_
  refine error_andThen_congr _ _ _ (opt_get_to_error_congr _ _ _ _ _
    from_json_string_error_congr _ _) fun a b => ?_
  exact opt_get_to_error_congr _ _ _ _ _ metadata_from_json_error_congr _ _

end

section
variable {F D : Type} [FloatConv F D]

/-- Whether `from_json(const json&, Dataset&)` throws, and what, does not depend on the
destination. -/
theorem dataset_from_json_error_congr (j : Json D) (x y : Dataset F D) :
    (Dataset.from_json j x).error = (Dataset.from_json j y).error := by
  unfold Dataset.from_json
  refine error_andThen_congr _ _ _ (at_get_to_error_congr _ _ _ _ _
    from_json_string_error_congr _ _) fun a b => ?_
  refine error_andThen_congr _ _ _ (at_get_to_error_congr _ _ _ _ _
    (from_json_vector_error_congr _ _) _ _) fun a b => ?_
  refine error_andThen_congr _ _ _ (opt_get_to_error_congr _ _ _ _ _
    from_json_string_error_congr _ _) fun a b => ?_
  refine error_andThen_congr _ _ _ (opt_get_to_error_congr _ _ _ _ _
    from_json_string_error_congr _ _) fun a b => ?_
  refine error_andThen_congr _ _ _ (opt_get_to_error_congr _ _ _ _ _
    (from_json_vector_error_congr _ _) _ _) fun a b => ?_
  refine error_andThen_congr _ _ _ (opt_get_to_error_congr _ _ _ _ _
    from_json_string_error_congr _ _) fun a b => ?_
  refine error_andThen_congr _ _ _ (opt_get_to_error_congr _ _ _ _ _
    from_json_string_error_congr _ _) fun a b => ?_
  refine error_andThen_congr _ _ _ (opt_get_to_error_congr _ _ _ _ _
    metadata_from_json_error_congr _ _) fun a b => ?_
  refine error_andThen_congr _ _ _ (opt_get_to_error_congr _ _ _ _ _
    sampleDetails_from_json_error_congr _ _) fun a b => ?_
  exact opt_get_to_error_congr _ _ _ _ _ instrumentDetails_from_json_error_congr _ _

/-- C14, as stated, fails: decoding an object with a valid `title` and no `traces` into a
default-constructed `Dataset` throws, and leaves the destination with the title written. -/
theorem all_or_nothing_counterexample :
    Dataset.from_json (.object [("title", .string "x")]) (Dataset.fresh : Dataset Int Int)
        = .threw (.out_of_range_403 "traces") { Dataset.fresh with title := "x" } ∧
      ({ Dataset.fresh with title := "x" } : Dataset Int Int) ≠ Dataset.fresh := by
  constructor
  · simp [Dataset.from_json, at_get_to, Outcome.andThen, Json.at_, Json.find, from_json_string]
  · simp [Dataset.fresh]

/-- C14, amended: when `from_json` of `j` into a destination `d` throws `e`, `read_dataset` on
`j` throws `e` and returns no `Dataset`; the destination of `from_json` itself is not
restored. -/
theorem failed_decode_returns_nothing (j : Json D) (d d1 : Dataset F D) (e : JsonError)
    (h : Dataset.from_json j d = .threw e d1) :
    read_dataset (F := F) j = .error e := by
  have h1 : (Dataset.from_json j d).error = some e := by rw [h]; rfl
  rw [dataset_from_json_error_congr j d Dataset.fresh, error_eq_some_iff] at h1
  obtain ⟨d2, h2⟩ := h1
  simp [read_dataset, h2]

theorem failed_decode_returns_nothing_witness :
    read_dataset (F := Int) (.object [("title", (.string "x" : Json Int))])
      = .error (.out_of_range_403 "traces") :=
  failed_decode_returns_nothing (.object [("title", .string "x")]) Dataset.fresh
    { Dataset.fresh with title := "x" } _
    (by simp [Dataset.from_json, at_get_to, Outcome.andThen, Json.at_, Json.find,
      from_json_string])


/-- C15. `SampleDetails` and `InstrumentDetails` have no required member: for an object whose
string members, when present, are strings and whose `other_details`, when present, is an
object, decoding into a default-constructed record succeeds; each string field is the member
when present and "" when absent, `other_details` is the member's entries when present and
empty when absent; the empty object decodes to the default record. -/
theorem details_no_required_fields (ms : Json.Members D) :
    (SampleDetails.RightKind (.object ms) →
      ∃ sd, SampleDetails.from_json (.object ms) SampleDetails.fresh = .ok sd ∧
        (∀ x, Json.find ms "buffer_conditions" = some (.string x) → sd.buffer_conditions = x) ∧
        (Json.find ms "buffer_conditions" = none → sd.buffer_conditions = "") ∧
        (∀ o : Metadata D, Json.find ms "other_details" = some (.object o) → o.IsMap →
          sd.other_details = o) ∧
        (Json.find ms "other_details" = none → sd.other_details = [])) ∧
    (InstrumentDetails.RightKind (.object ms) →
      ∃ id, InstrumentDetails.from_json (.object ms) InstrumentDetails.fresh = .ok id ∧
        (∀ x, Json.find ms "microscope" = some (.string x) → id.microscope = x) ∧
        (Json.find ms "microscope" = none → id.microscope = "") ∧
        (∀ x, Json.find ms "laser" = some (.string x) → id.laser = x) ∧
        (Json.find ms "laser" = none → id.laser = "") ∧
        (∀ x, Json.find ms "detector" = some (.string x) → id.detector = x) ∧
        (Json.find ms "detector" = none → id.detector = "") ∧
        (∀ o : Metadata D, Json.find ms "other_details" = some (.object o) → o.IsMap →
          id.other_details = o) ∧
        (Json.find ms "other_details" = none → id.other_details = [])) ∧
    SampleDetails.from_json (.object []) (SampleDetails.fresh : SampleDetails D)
      = .ok SampleDetails.fresh ∧
    InstrumentDetails.from_json (.object []) (InstrumentDetails.fresh : InstrumentDetails D)
      = .ok InstrumentDetails.fresh := by
  have hstr : ∀ key x cur, Json.find ms key = some (.string x) →
      optVal (.object ms) key from_json_string cur = x :=
    fun key x cur h => optVal_some ms key from_json_string cur _ x h rfl
  have hmeta : ∀ (o : Metadata D), Json.find ms "other_details" = some (.object o) → o.IsMap →
      optVal (.object ms) "other_details" Metadata.from_json [] = o :=
    fun o h ho => optVal_some ms _ Metadata.from_json [] _ o h
      (Metadata.from_json_object_fresh o ho)
  refine ⟨fun h => ⟨_, sampleDetails_from_json_object ms h SampleDetails.fresh, ?_⟩,
    fun h => ⟨_, instrumentDetails_from_json_object ms h InstrumentDetails.fresh, ?_⟩, ?_, ?_⟩
  · exact ⟨fun x h => hstr _ x _ h, fun h => optVal_none ms _ _ _ h, hmeta,
      fun h => optVal_none ms _ _ _ h⟩
  · exact ⟨fun x h => hstr _ x _ h, fun h => optVal_none ms _ _ _ h,
      fun x h => hstr _ x _ h, fun h => optVal_none ms _ _ _ h,
      fun x h => hstr _ x _ h, fun h => optVal_none ms _ _ _ h, hmeta,
      fun h => optVal_none ms _ _ _ h⟩
  · simp [SampleDetails.from_json, opt_get_to, Json.contains, Json.find, Outcome.andThen]
  · simp [InstrumentDetails.from_json, opt_get_to, Json.contains, Json.find, Outcome.andThen]

theorem details_no_required_fields_witness :
    (∃ sd : SampleDetails Int,
      SampleDetails.from_json
        (.object [("buffer_conditions", .string "PBS"),
          ("other_details", .object [("ph", .number_float 7)])]) SampleDetails.fresh = .ok sd ∧
      sd.buffer_conditions = "PBS" ∧ sd.other_details = [("ph", .number_float 7)]) ∧
    ∃ id : InstrumentDetails Int,
      InstrumentDetails.from_json (.object [("laser", .string "l")]) InstrumentDetails.fresh
        = .ok id ∧ id.laser = "l" ∧ id.microscope = "" ∧ id.other_details = [] :=
  ⟨((details_no_required_fields
      [("buffer_conditions", .string "PBS"),
        ("other_details", .object [("ph", .number_float 7)])]).1
      ⟨by simp [Json.MemberIs, Json.at_, Json.find, Json.is_string],
       by simp [Json.MemberIs, Json.at_, Json.find, Json.is_object]⟩).elim
    fun sd ⟨h0, h1, _, h3, _⟩ =>
      ⟨sd, h0, h1 "PBS" rfl, h3 _ rfl (by simp [Metadata.IsMap])⟩,
   ((details_no_required_fields [("laser", (.string "l" : Json Int))]).2.1
      ⟨by simp [Json.MemberIs, Json.at_, Json.find],
       by simp [Json.MemberIs, Json.at_, Json.find, Json.is_string],
       by simp [Json.MemberIs, Json.at_, Json.find],
       by simp [Json.MemberIs, Json.at_, Json.find]⟩).elim
    fun id ⟨h0, _, h2, h3, _, _, _, _, h8⟩ => ⟨id, h0, h3 "l" rfl, h2 rfl, h8 rfl⟩⟩

/-- C16. Metadata decode never fails on an object: `from_json` of any JSON object into an empty
`Metadata` returns normally, and the mapping it yields has the members of the object as its
entries, same keys, values unchanged. -/
theorem metadata_decode_object (ms : Json.Members D) :
    (∃ m, Metadata.from_json (.object ms) [] = .ok m) ∧
    (Metadata.IsMap ms → Metadata.from_json (.object ms) [] = .ok ms) :=
  ⟨⟨_, rfl⟩, fun h => Metadata.from_json_object_fresh ms h⟩

theorem metadata_decode_object_witness :
    Metadata.from_json
        (.object [("a", .object [("z", .array [.null, .object []])]), ("b", .number_integer 3)])
        ([] : Metadata Int)
      = .ok [("a", .object [("z", .array [.null, .object []])]), ("b", .number_integer 3)] :=
  (metadata_decode_object
    [("a", .object [("z", .array [.null, .object []])]), ("b", .number_integer 3)]).2
    (by simp +decide [Metadata.IsMap])


/-- The outcome of `from_json(const json&, Dataset&)` depends on the object only through the
ten members it asks for. -/
theorem dataset_from_json_congr (ms1 ms2 : Json.Members D) (d : Dataset F D)
    (h : ∀ key ∈ ["title", "description", "experiment_type", "authors", "institution", "date",
      "traces", "metadata", "sample_details", "instrument_details"],
      Json.find ms1 key = Json.find ms2 key) :
    Dataset.from_json (.object ms1) d = Dataset.from_json (.object ms2) d := by
  have h1 := h "title" (by simp)
  have h2 := h "description" (by simp)
  have h3 := h "experiment_type" (by simp)
  have h4 := h "authors" (by simp)
  have h5 := h "institution" (by simp)
  have h6 := h "date" (by simp)
  have h7 := h "traces" (by simp)
  have h8 := h "metadata" (by simp)
  have h9 := h "sample_details" (by simp)
  have h10 := h "instrument_details" (by simp)
  simp only [Dataset.from_json, at_get_to, opt_get_to, Json.at_, Json.contains, h1, h2, h3, h4,
    h5, h6, h7, h8, h9, h10]

/-- C17. Unknown members are ignored: setting a member whose key is not one of the ten names
of the Dataset schema to any value does not change the outcome of `from_json`, neither the
decoded `Dataset` (its `metadata` included) nor the exception. -/
theorem unknown_members_ignored (ms : Json.Members D) (k : String) (v : Json D)
    (d : Dataset F D)
    (hk : k ∉ ["title", "description", "experiment_type", "authors", "institution", "date",
      "traces", "metadata", "sample_details", "instrument_details"]) :
    Dataset.from_json (.object (Json.assign ms k v)) d = Dataset.from_json (.object ms) d := by
  refine dataset_from_json_congr _ _ d fun key hkey => ?_
  rw [Json.find_assign]
  have : k ≠ key := fun e => hk (e ▸ hkey)
  simp [this]

theorem unknown_members_ignored_witness :
    Dataset.from_json
        (.object (Json.assign [("title", .string "T"), ("traces", .array [])] "extra"
          (.object [("a", .null)]))) (Dataset.fresh : Dataset Int Int)
      = Dataset.from_json (.object [("title", .string "T"), ("traces", .array [])])
          Dataset.fresh :=
  unknown_members_ignored [("title", .string "T"), ("traces", .array [])] "extra"
    (.object [("a", .null)]) Dataset.fresh (by decide)

theorem memberIs_of_not_object (v : Json D) (hv : v.is_object = false) (key : String)
    (p : Json D → Bool) : v.MemberIs key p := by
  intro w hw
  cases v <;> simp [Json.at_, Json.is_object] at hw hv

theorem sampleDetails_from_json_not_object (v : Json D) (hv : v.is_object = false)
    (cur : SampleDetails D) : SampleDetails.from_json v cur = .ok cur := by
  cases v <;> simp [Json.is_object] at hv <;>
    simp [SampleDetails.from_json, opt_get_to, Json.contains, Outcome.andThen]

theorem instrumentDetails_from_json_not_object (v : Json D) (hv : v.is_object = false)
    (cur : InstrumentDetails D) : InstrumentDetails.from_json v cur = .ok cur := by
  cases v <;> simp [Json.is_object] at hv <;>
    simp [InstrumentDetails.from_json, opt_get_to, Json.contains, Outcome.andThen]

/-- C18. Non-object optional records are accepted: `from_json` of a JSON value that is not an
object into a default-constructed `SampleDetails` or `InstrumentDetails` returns normally and
leaves the default record; and a Dataset object with a string `title`, a `traces` array that
decodes, `sample_details` set to such a value and its other optional members of the right
kinds decodes successfully with a default `sample_details`. -/
theorem non_object_details_accepted (v : Json D) (hv : v.is_object = false) :
    SampleDetails.from_json v SampleDetails.fresh = .ok SampleDetails.fresh ∧
    InstrumentDetails.from_json v InstrumentDetails.fresh = .ok InstrumentDetails.fresh ∧
    ∀ (ms : Json.Members D) (s : String) (elems : List (Json D)) (ts : List (Trace F D)),
      Json.find ms "title" = some (.string s) →
      Json.find ms "traces" = some (.array elems) →
      get_elems Trace.from_json Trace.fresh elems = .ok ts →
      Json.find ms "sample_details" = some v →
      (Json.object ms).MemberIs "description" Json.is_string →
      (Json.object ms).MemberIs "experiment_type" Json.is_string →
      (Json.object ms).MemberIs "authors" Json.is_string_array →
      (Json.object ms).MemberIs "institution" Json.is_string →
      (Json.object ms).MemberIs "date" Json.is_string →
      (Json.object ms).MemberIs "metadata" Json.is_object →
      (∀ w, Json.find ms "instrument_details" = some w → InstrumentDetails.RightKind w) →
      ∃ d : Dataset F D, Dataset.from_json (.object ms) Dataset.fresh = .ok d ∧
        d.title = s ∧ d.traces = ts ∧ d.sample_details = SampleDetails.fresh := by
  refine ⟨sampleDetails_from_json_not_object v hv _,
    instrumentDetails_from_json_not_object v hv _, ?_⟩
  intro ms s elems ts htitle htraces hts hsd hdesc hexp hauth hinst hdate hmeta hid
  have hkind : ∀ w, Json.find ms "sample_details" = some w → SampleDetails.RightKind w := by
    intro w hw
    rw [hsd] at hw
    cases hw
    exact ⟨memberIs_of_not_object v hv _ _, memberIs_of_not_object v hv _ _⟩
  refine ⟨_, dataset_from_json_object ms s elems ts Dataset.fresh htitle htraces hts hdesc hexp
    hauth hinst hdate hmeta hkind hid, rfl, rfl, ?_⟩
  exact optVal_some ms "sample_details" SampleDetails.from_json _ v _ hsd
    (sampleDetails_from_json_not_object v hv _)

theorem non_object_details_accepted_witness :
    SampleDetails.from_json (.array [.number_integer 1] : Json Int) SampleDetails.fresh
        = .ok SampleDetails.fresh ∧
      ∃ d : Dataset Int Int,
        Dataset.from_json
          (.object [("sample_details", .array [.number_integer 1]), ("title", .string "T"),
            ("traces", .array [])]) Dataset.fresh = .ok d ∧
        d.title = "T" ∧ d.traces = [] ∧ d.sample_details = SampleDetails.fresh :=
  have h := non_object_details_accepted (F := Int) (.array [.number_integer 1] : Json Int) rfl
  ⟨h.1, h.2.2
    [("sample_details", .array [.number_integer 1]), ("title", .string "T"),
      ("traces", .array [])] "T" [] [] rfl rfl rfl rfl
    (by simp [Json.MemberIs, Json.at_, Json.find])
    (by simp [Json.MemberIs, Json.at_, Json.find])
    (by simp [Json.MemberIs, Json.at_, Json.find])
    (by simp [Json.MemberIs, Json.at_, Json.find])
    (by simp [Json.MemberIs, Json.at_, Json.find])
    (by simp [Json.MemberIs, Json.at_, Json.find])
    (by simp [Json.find])⟩

/-- C19. Error precedence in Dataset decode: `title` is read first, `traces` second, the
optional members after them, and the first failure is the exception thrown.  An object without
`title` and without `traces` throws key-not-found for "title"; an object with a string `title`,
no `traces` and a `description` that is not a string throws key-not-found for "traces"; a
`title` that is not a string throws its type error whatever `traces` is; and with `title` and
`traces` decoded, a `description` that is not a string throws its type error whatever the
later members are. -/
theorem error_precedence (ms : Json.Members D) (d0 : Dataset F D) :
    (Json.find ms "title" = none → Json.find ms "traces" = none →
      (Dataset.from_json (.object ms) d0).error = some (.out_of_range_403 "title")) ∧
    (∀ s w, Json.find ms "title" = some (.string s) → Json.find ms "traces" = none →
      Json.find ms "description" = some w → w.is_string = false →
      (Dataset.from_json (.object ms) d0).error = some (.out_of_range_403 "traces")) ∧
    (∀ w, Json.find ms "title" = some w → w.is_string = false →
      (Dataset.from_json (.object ms) d0).error
        = some (.type_error_302 "string" w.type_name)) ∧
    (∀ s elems (ts : List (Trace F D)) w, Json.find ms "title" = some (.string s) →
      Json.find ms "traces" = some (.array elems) →
      get_elems Trace.from_json Trace.fresh elems = .ok ts →
      Json.find ms "description" = some w → w.is_string = false →
      (Dataset.from_json (.object ms) d0).error
        = some (.type_error_302 "string" w.type_name)) := by
  refine ⟨?_, ?_, ?_, ?_⟩
  · intro h _
    simp [Dataset.from_json, at_get_to, Outcome.andThen, Json.at_, h, Outcome.error]
  · intro s w h1 h2 _ _
    simp [Dataset.from_json, at_get_to, Outcome.andThen, Json.at_, h1, h2, from_json_string,
      Outcome.error]
  · intro w h1 hw
    cases w <;> simp [Json.is_string] at hw <;>
      simp [Dataset.from_json, at_get_to, Outcome.andThen, Json.at_, h1, from_json_string,
        Outcome.error]
  · intro s elems ts w h1 h2 hts h3 hw
    cases w <;> simp [Json.is_string] at hw <;>
      simp [Dataset.from_json, at_get_to, opt_get_to, Outcome.andThen, Json.at_, Json.contains,
        h1, h2, h3, hts, from_json_string, from_json_vector, Outcome.error]

theorem error_precedence_witness :
    (Dataset.from_json (.object [("description", .number_integer 1)])
        (Dataset.fresh : Dataset Int Int)).error = some (.out_of_range_403 "title") ∧
      (Dataset.from_json
        (.object [("description", .number_integer 1), ("title", .string "T")])
        (Dataset.fresh : Dataset Int Int)).error = some (.out_of_range_403 "traces") :=
  ⟨(error_precedence [("description", .number_integer 1)] Dataset.fresh).1 rfl rfl,
   (error_precedence [("description", .number_integer 1), ("title", .string "T")]
      Dataset.fresh).2.1 "T" (.number_integer 1) rfl rfl rfl rfl⟩

end
end OpenFRET
